import Mathlib

/-!
Verification of the ZOI Sentinel research-orchestration and compliance-cache
engine (`zoi_complete_system.py`) against its natural-language specification.

The Python module is shallowly embedded: dictionaries become structures or
association lists, timestamps become integers (seconds), the external Claude
research call becomes an explicit outcome parameter, and the FastAPI layer is
out of scope.  Python's runtime type errors (e.g. calling `.strip()` on a
non-string) are modelled with `Except`.  All definitions are executable.
-/

set_option maxRecDepth 8192

namespace Zoi

/-! ## Character and string helpers (models of the Python `str` operations) -/

/-- ASCII upper-to-lower case table: the case mapping used by the slugs and
substance keys of this system (model of `str.lower` on the relevant ASCII
range; non-ASCII characters are left unchanged). -/
def asciiCaseTable : List (Char × Char) :=
  [('A', 'a'), ('B', 'b'), ('C', 'c'), ('D', 'd'), ('E', 'e'), ('F', 'f'),
   ('G', 'g'), ('H', 'h'), ('I', 'i'), ('J', 'j'), ('K', 'k'), ('L', 'l'),
   ('M', 'm'), ('N', 'n'), ('O', 'o'), ('P', 'p'), ('Q', 'q'), ('R', 'r'),
   ('S', 's'), ('T', 't'), ('U', 'u'), ('V', 'v'), ('W', 'w'), ('X', 'x'),
   ('Y', 'y'), ('Z', 'z')]

/-- Lower-case one character (model of `str.lower`, charwise). -/
def lowerChar (c : Char) : Char := ((asciiCaseTable.lookup c).getD c)

/-- The inverse table, for `str.upper`. -/
def asciiUpTable : List (Char × Char) := asciiCaseTable.map (fun p => (p.2, p.1))

/-- Upper-case one character (model of `str.upper`, charwise). -/
def upperChar (c : Char) : Char := ((asciiUpTable.lookup c).getD c)

/-- Model of `str.lower`. -/
def pyLower (s : String) : String := String.mk (s.data.map lowerChar)

/-- Model of `str.upper`. -/
def pyUpper (s : String) : String := String.mk (s.data.map upperChar)

/-- Python whitespace, as stripped by `str.strip()` and matched by the
regex class `\s`. -/
def pyWs (c : Char) : Bool :=
  c = ' ' || c = '\t' || c = '\n' || c = '\r' || c = '\x0b' || c = '\x0c'

/-- Drop a matching suffix (used to model stripping from the right). -/
def dropEndWhile (p : Char → Bool) (l : List Char) : List Char :=
  (l.reverse.dropWhile p).reverse

/-- Model of `str.strip()` on character lists. -/
def pyStripChars (l : List Char) : List Char :=
  dropEndWhile pyWs (l.dropWhile pyWs)

/-- Model of `str.strip()`. -/
def pyStrip (s : String) : String := String.mk (pyStripChars s.data)

/-- Substring containment on character lists (model of Python `pat in hay`;
like Python, the empty pattern is contained in everything). -/
def listContains (hay pat : List Char) : Bool :=
  hay.tails.any (fun t => pat.isPrefixOf t)

/-- Model of Python `pat in hay` on strings. -/
def strContains (hay pat : String) : Bool := listContains hay.data pat.data

/-! ## Regulatory truth layer (`apply_regulatory_truth`, lines 136-203)

A substance value in the `max_residue_limits` mapping is either a dict with
the four fields used by the authority table (`limit`, `status`,
`regulation`, `note`; `obj`) or a non-dict value (`raw`).  Merging a dict
with an authority entry (`{**substance_data, **banned_truth}`) overwrites
all four modelled fields, so in this four-field model the merge result is
the authority entry itself; extra keys of `substance_data`, which the
Python merge would preserve, are not modelled (no claim inspects them). -/

inductive SubVal where
  | obj (limit status regulation note : Option String)
  | raw (s : String)
deriving DecidableEq

/-- The `status` field of a substance value (`v.get("status")`). -/
def SubVal.statusOf : SubVal → Option String
  | .obj _ s _ _ => s
  | .raw _ => none

/-- `isinstance(v, dict) and v.get("status") == "BANIDO"`. -/
def SubVal.isBanido : SubVal → Bool
  | .obj _ s _ _ => s = some "BANIDO"
  | .raw _ => false

/-- A parse result for the `last_updated` timestamp: a valid ISO timestamp
(as integer seconds) or a string `datetime.fromisoformat` rejects. -/
inductive Stamp where
  | valid (t : Int)
  | malformed
deriving DecidableEq

/-- The compliance record, restricted to the fields the claims inspect.
Python dicts may lack a key: `status` and `risk_score` are read with
defaults `""` and `0` in the source, so a missing key is indistinguishable
from those defaults and they are modelled as plain fields; the remaining
fields are `Option`s with `none` for an absent key.  Fields never
inspected by the source logic under verification (certificates,
regulations, requirements, tariff and trade-route metadata, risk factors)
are not modelled. -/
structure ComplianceData where
  ncm_code : String
  product_name : String
  status : String
  risk_score : Int
  max_residue_limits : List (String × SubVal)
  alerts : List String
  lmr_conformity_pct : Option Nat
  lmr_banned_count : Option Nat
  regulatory_correction_applied : Option Bool
  data_source : String
  data_source_note : Option String
  needs_ai_update : Option Bool
  last_updated : Option Stamp
  claude_research_status : Option String
deriving DecidableEq

/-- `EU_BANNED_SUBSTANCES` authority table (source lines 136-142). -/
def EU_BANNED_SUBSTANCES : List (String × SubVal) := [
  ("carbendazim", SubVal.obj (some "0.01 mg/kg") (some "BANIDO") (some "Reg. (CE) 396/2005") (some "Banido na UE — mutagênico e tóxico para reprodução.")),
  ("imidacloprid", SubVal.obj (some "0.01 mg/kg") (some "BANIDO") (some "Reg. Impl. (UE) 2018/783") (some "Banido na UE desde 2018 — neonicotinoide.")),
  ("thiamethoxam", SubVal.obj (some "0.01 mg/kg") (some "BANIDO") (some "Reg. Impl. (UE) 2018/785") (some "Banido na UE desde 2018 — neonicotinoide.")),
  ("clothianidin", SubVal.obj (some "0.01 mg/kg") (some "BANIDO") (some "Reg. Impl. (UE) 2018/784") (some "Banido na UE desde 2018 — neonicotinoide.")),
  ("thiacloprid", SubVal.obj (some "0.01 mg/kg") (some "BANIDO") (some "Reg. (UE) 2020/23") (some "Aprovação não renovada — banido desde Fev/2020."))]

/-! ### IEEE-754 double model for the conformity percentage

The source computes `int(((total - banned_count) / total) * 100)` with
Python floats.  Both `/` and `*` produce the correctly rounded
(round-to-nearest, ties-to-even) IEEE-754 double of the exact result, and
`int` truncates toward zero.  A nonnegative double is represented exactly
as a pair `(m, t) : Nat × Int` with value `m / 2^t` and normal mantissa
`m ∈ [2^52, 2^53)` (or `(0, 0)` for zero); the values arising here
(quotients in `[0, 1]` and their hundredfolds) are all normal, so
subnormals and overflow need no treatment. -/

/-- Scale `P / Q` by powers of two (tracked in the exponent `t`) until the
quotient lies in the binade `[2^52, 2^53)`. -/
def normScale : Nat → Nat × Nat × Int → Nat × Nat × Int
  | 0, s => s
  | fuel + 1, (P, Q, t) =>
    if P < 2 ^ 52 * Q then normScale fuel (2 * P, Q, t + 1)
    else if 2 ^ 53 * Q ≤ P then normScale fuel (P, 2 * Q, t - 1)
    else (P, Q, t)

/-- The IEEE-754 double nearest to the rational `p / q` (ties to even), as
a mantissa-exponent pair with value `m / 2^t`, including the carry when
rounding reaches `2^53`. -/
def dblOfRatPair (p q : Nat) : Nat × Int :=
  if p = 0 || q = 0 then (0, 0)
  else
    let s := normScale 300 (p, q, 0)
    let m0 := s.1 / s.2.1
    let r := s.1 % s.2.1
    let m := if 2 * r > s.2.1 then m0 + 1
             else if 2 * r < s.2.1 then m0
             else if m0 % 2 = 0 then m0 else m0 + 1
    if m = 2 ^ 53 then (2 ^ 52, s.2.2 - 1) else (m, s.2.2)

/-- Python float division of two machine integers (`a / b`): the
correctly rounded double of the exact quotient. -/
def pyFloatDiv (a b : Nat) : Nat × Int := dblOfRatPair a b

/-- Python float multiplication by the exact integer `100` (`x * 100`):
the correctly rounded double of the exact product `100 * m / 2^t`. -/
def pyFloatMul100 (x : Nat × Int) : Nat × Int :=
  if 0 ≤ x.2 then dblOfRatPair (100 * x.1) (2 ^ x.2.toNat)
  else dblOfRatPair (100 * x.1 * 2 ^ (-x.2).toNat) 1

/-- Python `int()` on a nonnegative float `m / 2^t`: truncation toward
zero. -/
def pyIntTrunc (x : Nat × Int) : Nat :=
  if 0 ≤ x.2 then x.1 / 2 ^ x.2.toNat else x.1 * 2 ^ (-x.2).toNat

/-- `substance_key.lower().replace("-", "").replace("_", "").replace(" ", "")`. -/
def normalizeSubstanceKey (s : String) : String :=
  String.mk ((s.data.map lowerChar).filter (fun c => !(c = '-' || c = '_' || c = ' ')))

/-- `banned_key.replace("-", "")`. -/
def stripDashes (s : String) : String :=
  String.mk (s.data.filter (fun c => !(c = '-')))

/-- The bidirectional substring containment test of the loop body:
`banned_key.replace("-", "") in normalized or normalized in banned_key.replace("-", "")`. -/
def bannedMatch (substanceKey bannedKey : String) : Bool :=
  let normalized := normalizeSubstanceKey substanceKey
  strContains normalized (stripDashes bannedKey) ||
    strContains (stripDashes bannedKey) normalized

/-- The first authority-table entry matching a substance key (the inner
`for banned_key, banned_truth in EU_BANNED_SUBSTANCES.items()` loop with
its `break`). -/
def findBanned (substanceKey : String) : Option (String × SubVal) :=
  EU_BANNED_SUBSTANCES.find? (fun b => bannedMatch substanceKey b.1)

/-- One iteration of the correction loop on a single `max_residue_limits`
entry: on a match the entry is overwritten with the authority values
(both for the dict merge and the non-dict replacement; see `SubVal`),
otherwise it is unchanged. -/
def processEntry (k : String) (v : SubVal) : SubVal :=
  match findBanned k with
  | some b => b.2
  | none => v

/-- Whether processing this entry sets the `corrected` flag: a match where
the prior value was not a dict, or was a dict whose `status` (read with
default `""`) differed from `"BANIDO"`. -/
def entryCorrected (k : String) (v : SubVal) : Bool :=
  (findBanned k).isSome &&
    (match v with
     | .obj _ s _ _ => (s.getD "") != "BANIDO"
     | .raw _ => true)

/-- `apply_regulatory_truth` (source lines 144-203).  The Python loop
mutates `mrl[substance_key]` in place and accumulates `has_banned` /
`corrected`; the iterations are independent, so the loop is embedded as a
map plus two `any` folds.  The conformity percentage
`int(((total - banned_count) / total) * 100)` is computed in IEEE-754
double arithmetic, modelled by `pyFloatDiv` / `pyFloatMul100` /
`pyIntTrunc`; it can differ by one from the exact integer percentage
(e.g. 57 rather than 58 for 29 conforming entries out of 50). -/
def apply_regulatory_truth (data : ComplianceData) : ComplianceData :=
  let mrl := data.max_residue_limits
  let mrl' := mrl.map (fun kv => (kv.1, processEntry kv.1 kv.2))
  let hasBanned := mrl.any (fun kv => (findBanned kv.1).isSome)
  let corrected := mrl.any (fun kv => entryCorrected kv.1 kv.2)
  let d1 :=
    if hasBanned then
      let total := mrl'.length
      let bannedCount := (mrl'.filter (fun kv => kv.2.isBanido)).length
      let conformityPct :=
        if total > 0 then pyIntTrunc (pyFloatMul100 (pyFloatDiv (total - bannedCount) total))
        else 100
      let status' :=
        if bannedCount > 0 && strContains (pyUpper data.status) "APPROVED" then
          "REQUIRES ATTENTION"
        else data.status
      let risk' :=
        if bannedCount > 0 && decide (data.risk_score > 79) then (79 : Int)
        else data.risk_score
      { data with status := status', risk_score := risk',
                  lmr_conformity_pct := some conformityPct,
                  lmr_banned_count := some bannedCount }
    else data
  let d2 :=
    if corrected then { d1 with regulatory_correction_applied := some true } else d1
  { d2 with max_residue_limits := mrl' }

/-! ## Slug normalization (`SLUG_ALIASES`, `normalize_slug`, lines 1488-1518) -/

/-- `SLUG_ALIASES` (source lines 1488-1513). -/
def SLUG_ALIASES : List (String × String) := [
  ("soja", "soja_grao"),
  ("soja_graos", "soja_grao"),
  ("soybeans", "soja_grao"),
  ("açaí", "acai"),
  ("açai", "acai"),
  ("acai_polpa", "acai"),
  ("coffee", "cafe"),
  ("café", "cafe"),
  ("cafe_verde", "cafe"),
  ("carne_bovina", "carne_bovina_congelada"),
  ("beef", "carne_bovina_congelada"),
  ("bovina_congelada", "carne_bovina_congelada"),
  ("frango", "frango_congelado"),
  ("chicken", "frango_congelado"),
  ("frango_partes", "frango_congelado"),
  ("camaro", "camaro_congelado"),
  ("camarão", "camaro_congelado"),
  ("shrimp", "camaro_congelado"),
  ("suco_laranja", "suco_laranja_congelado"),
  ("fcoj", "suco_laranja_congelado"),
  ("orange_juice", "suco_laranja_congelado"),
  ("maracuja", "polpa_maracuja"),
  ("maracujá", "polpa_maracuja"),
  ("passion_fruit", "polpa_maracuja"),
  ("manga", "manga_fresca"),
  ("mango", "manga_fresca"),
  ("tilapia", "file_tilapia_congelado"),
  ("tilápia", "file_tilapia_congelado"),
  ("file_tilapia", "file_tilapia_congelado"),
  ("carne_suina", "carne_suina_congelada"),
  ("suina", "carne_suina_congelada"),
  ("pork", "carne_suina_congelada"),
  ("melao", "melao_fresco"),
  ("melão", "melao_fresco"),
  ("melon", "melao_fresco"),
  ("uva", "uva_fresca_exportacao"),
  ("grape", "uva_fresca_exportacao"),
  ("maca", "maca_italiana"),
  ("maçã", "maca_italiana"),
  ("apple", "maca_italiana"),
  ("mele", "maca_italiana"),
  ("mozzarella", "mozzarella_fresca"),
  ("mozarela", "mozzarella_fresca"),
  ("parmigiano", "parmigiano_reggiano"),
  ("grana_padano", "parmigiano_reggiano"),
  ("parmesao", "parmigiano_reggiano"),
  ("prosciutto", "prosciutto_di_parma"),
  ("presunto_italiano", "prosciutto_di_parma"),
  ("san_daniele", "prosciutto_di_parma"),
  ("tomate_pelado", "tomate_pelado_italiano"),
  ("pelati", "tomate_pelado_italiano"),
  ("trufa", "trufa_fresca"),
  ("tartufo", "trufa_fresca"),
  ("truffle", "trufa_fresca"),
  ("kiwi", "kiwi_fresco_italiano"),
  ("pera", "pera_fresca_italiana"),
  ("pear", "pera_fresca_italiana")
]

/-- The separator replacement `replace("-", "_").replace(" ", "_")` as one
character map (the first replacement cannot create a space, so the order
is immaterial). -/
def substDashSpace (c : Char) : Char := if c = '-' || c = ' ' then '_' else c

/-- `slug.lower().strip().replace("-", "_").replace(" ", "_")`. -/
def canonSlug (s : String) : String :=
  String.mk ((pyStripChars (s.data.map lowerChar)).map substDashSpace)

/-- `normalize_slug` (source lines 1516-1518). -/
def normalize_slug (slug : String) : String :=
  let normalized := canonSlug slug
  (SLUG_ALIASES.lookup normalized).getD normalized

/-! ## Compliance cache (`get_cached` / `set_cached`, lines 207-226) -/

/-- `del PRODUCT_CACHE[slug]` (dict keys are unique, so the association
list is kept duplicate-free). -/
def eraseKey (slug : String) (cache : List (String × ComplianceData)) :
    List (String × ComplianceData) :=
  cache.filter (fun kv => kv.1 != slug)

/-- `datetime.fromisoformat("2000-01-01")`, the default used when a cached
entry has no `last_updated` key, as integer seconds. -/
def default_iso_epoch : Int := 946684800

/-- `get_cached` (source lines 211-221).  Returns the read result together
with the cache after the read, because the source deletes the entry
(`del PRODUCT_CACHE[slug]`) whenever it is present but not fresh —
including when its timestamp fails to parse, which the `try`/`except`
turns into a miss rather than an error. -/
def get_cached (cache : List (String × ComplianceData)) (now ttl : Int)
    (slug : String) : Option ComplianceData × List (String × ComplianceData) :=
  match cache.lookup slug with
  | none => (none, cache)
  | some cached =>
    let storedAt : Option Int :=
      match cached.last_updated with
      | some (.valid t) => some t
      | some .malformed => none
      | none => some default_iso_epoch
    match storedAt with
    | some t =>
      if now - t < ttl then (some cached, cache) else (none, eraseKey slug cache)
    | none => (none, eraseKey slug cache)

/-- `set_cached` (source lines 224-226): stamps `last_updated` with the
current time and stores the record.  The Python mutates the record in
place before storing it, so the stamped record is also returned for use
as the caller-visible value. -/
def set_cached (cache : List (String × ComplianceData)) (now : Int)
    (slug : String) (data : ComplianceData) :
    ComplianceData × List (String × ComplianceData) :=
  let d := { data with last_updated := some (.valid now) }
  (d, (slug, d) :: eraseKey slug cache)

/-! ## Unknown-product template and reference knowledge base -/

/-- `make_unknown_product_template` (source lines 1521-1556), restricted to
the modelled fields. -/
def make_unknown_product_template (product_name : String) : ComplianceData :=
  { ncm_code := "PESQUISA_EM_ANDAMENTO",
    product_name := product_name,
    status := "RESEARCHING",
    risk_score := 50,
    max_residue_limits := [],
    alerts := ["🔍 Pesquisa IA em andamento para \x27" ++ product_name ++ "\x27...",
               "Os dados serão atualizados automaticamente quando a pesquisa completar.",
               "Você também pode clicar \x27Atualizar via IA\x27 para verificar."],
    lmr_conformity_pct := none, lmr_banned_count := none,
    regulatory_correction_applied := none,
    data_source := "template_pending_research",
    data_source_note := none,
    needs_ai_update := some true,
    last_updated := none,
    claude_research_status := none }

/-- `REFERENCE_DATA` (source lines 488-1486), restricted to the modelled
fields; keys of the dicts that the modelled record does not carry (display
names, category, risk level, trade route, certificates, regulations,
requirements, tariff info, risk factors) are omitted, and a missing
`data_source` key is modelled as `""`. -/
def REFERENCE_DATA : List (String × ComplianceData) := [
  ("soja_grao",
   { ncm_code := "1201.90.00", product_name := "Soja em Grãos",
     status := "ZOI APPROVED", risk_score := 100,
     max_residue_limits := [
      ("aflatoxinas_total", SubVal.obj (some "4 µg/kg") none (some "Reg. 1881/2006") none),
      ("aflatoxina_b1", SubVal.obj (some "2 µg/kg") none (some "Reg. 1881/2006") none),
      ("glifosato", SubVal.obj (some "20 mg/kg") none (some "Reg. 396/2005") none)],
     alerts := [],
     lmr_conformity_pct := none, lmr_banned_count := none,
     regulatory_correction_applied := none, data_source := "",
     data_source_note := none, needs_ai_update := none,
     last_updated := none, claude_research_status := none }),
  ("acai",
   { ncm_code := "0811.90.10", product_name := "Açaí (Polpa/Fruto)",
     status := "ZOI APPROVED", risk_score := 85,
     max_residue_limits := [
      ("carbendazim", SubVal.obj (some "0.01 mg/kg") (some "BANIDO") (some "Reg. (CE) 396/2005") (some "Banido na UE — mutagênico e tóxico para reprodução. Tolerância zero.")),
      ("imidacloprid", SubVal.obj (some "0.01 mg/kg") (some "BANIDO") (some "Reg. Impl. (UE) 2018/783") (some "Banido na UE desde 2018 — neonicotinoide neurotóxico para abelhas.")),
      ("thiamethoxam", SubVal.obj (some "0.01 mg/kg") (some "BANIDO") (some "Reg. Impl. (UE) 2018/785") (some "Banido na UE desde 2018 — neonicotinoide neurotóxico para abelhas.")),
      ("clothianidin", SubVal.obj (some "0.01 mg/kg") (some "BANIDO") (some "Reg. Impl. (UE) 2018/784") (some "Banido na UE desde 2018 — neonicotinoide neurotóxico para abelhas.")),
      ("glyphosate", SubVal.obj (some "0.1 mg/kg") (some "CONFORME") (some "Reg. (CE) 396/2005") (some "MRL 0.1 mg/kg para frutas — posição NCM 08.")),
      ("cypermethrin", SubVal.obj (some "0.05 mg/kg") (some "CONFORME") (some "Reg. (CE) 396/2005") (some "MRL 0.05 mg/kg para frutas — posição NCM 08."))],
     alerts := ["⚠️ Atenção à cadeia fria - açaí é altamente perecível"],
     lmr_conformity_pct := none, lmr_banned_count := none,
     regulatory_correction_applied := none, data_source := "",
     data_source_note := none, needs_ai_update := none,
     last_updated := none, claude_research_status := none }),
  ("cafe",
   { ncm_code := "0901.11.00", product_name := "Café Verde (Grãos não torrados)",
     status := "ZOI APPROVED", risk_score := 95,
     max_residue_limits := [
      ("ocratoxina_a", SubVal.obj (some "5 µg/kg (torrado)") none (some "Reg. 1881/2006") none)],
     alerts := ["🌿 EUDR: obrigatória due diligence anti-desmatamento"],
     lmr_conformity_pct := none, lmr_banned_count := none,
     regulatory_correction_applied := none, data_source := "",
     data_source_note := none, needs_ai_update := none,
     last_updated := none, claude_research_status := none }),
  ("carne_bovina_congelada",
   { ncm_code := "0202.30.00", product_name := "Carne Bovina Congelada (desossada)",
     status := "ZOI APPROVED", risk_score := 80,
     max_residue_limits := [
      ("ivermectin", SubVal.obj (some "0.01 mg/kg") (some "CONFORME") (some "Reg. (CE) 396/2005") (some "MRL músculo bovino.")),
      ("oxytetracycline", SubVal.obj (some "0.1 mg/kg") (some "CONFORME") (some "Reg. (CE) 37/2010") (some "MRL músculo bovino.")),
      ("estradiol_17b", SubVal.obj (some "0.0005 mg/kg") (some "BANIDO") (some "Diretiva CE 96/22") (some "Hormônio banido na UE para promoção de crescimento."))],
     alerts := ["⚠️ Estabelecimento deve constar na lista positiva MAPA/UE — verificar antes de embarcar", "🌡️ Cadeia fria ininterrupta ≤ -18°C obrigatória", "🚫 Uso de hormônios de crescimento veda exportação à UE"],
     lmr_conformity_pct := none, lmr_banned_count := none,
     regulatory_correction_applied := none, data_source := "",
     data_source_note := none, needs_ai_update := none,
     last_updated := none, claude_research_status := none }),
  ("frango_congelado",
   { ncm_code := "0207.14.00", product_name := "Carne de Frango Congelada (pedaços e miudezas)",
     status := "ZOI APPROVED", risk_score := 82,
     max_residue_limits := [
      ("enrofloxacin", SubVal.obj (some "0.1 mg/kg") (some "CONFORME") (some "Reg. (CE) 396/2005") (some "MRL músculo de aves.")),
      ("chloramphenicol", SubVal.obj (some "0.0003 mg/kg") (some "BANIDO") (some "Reg. (CE) 1950/2006") (some "Antibiótico banido na UE — tolerância zero.")),
      ("nitrofurans", SubVal.obj (some "0.001 mg/kg") (some "BANIDO") (some "Reg. (CE) 1950/2006") (some "Banido na UE — cancerígeno."))],
     alerts := ["⚠️ Sujeito a controles reforçados na entrada UE — Reg. 2019/1793", "🦠 Análise de Salmonella obrigatória em cada lote exportado", "🚫 Chloramphenicol e nitrofuranos: tolerância zero na UE"],
     lmr_conformity_pct := none, lmr_banned_count := none,
     regulatory_correction_applied := none, data_source := "",
     data_source_note := none, needs_ai_update := none,
     last_updated := none, claude_research_status := none }),
  ("camaro_congelado",
   { ncm_code := "0306.17.00", product_name := "Camarão Congelado (sem casca ou com casca)",
     status := "REQUIRES ATTENTION", risk_score := 72,
     max_residue_limits := [
      ("oxytetracycline", SubVal.obj (some "0.1 mg/kg") (some "CONFORME") (some "Reg. (CE) 396/2005") (some "MRL crustáceos.")),
      ("chloramphenicol", SubVal.obj (some "0.0003 mg/kg") (some "BANIDO") (some "Reg. (CE) 1950/2006") (some "Tolerância zero. Causa frequentes rejeições RASFF em camarão brasileiro.")),
      ("nitrofurans", SubVal.obj (some "0.001 mg/kg") (some "BANIDO") (some "Reg. (CE) 1950/2006") (some "Banido. Detectado frequentemente em RASFF — monitorar fornecedores."))],
     alerts := ["🔴 Camarão brasileiro figura com frequência no RASFF por Chloramphenicol — exigir laudos de todos os lotes", "⚠️ Sujeito a controles reforçados na fronteira UE — Reg. 2019/1793", "🌡️ Cadeia fria ≤ -18°C obrigatória durante todo o transporte"],
     lmr_conformity_pct := none, lmr_banned_count := none,
     regulatory_correction_applied := none, data_source := "",
     data_source_note := none, needs_ai_update := none,
     last_updated := none, claude_research_status := none }),
  ("suco_laranja_congelado",
   { ncm_code := "2009.12.00", product_name := "Suco de Laranja Congelado (FCOJ — não fermentado)",
     status := "ZOI APPROVED", risk_score := 90,
     max_residue_limits := [
      ("imazalil", SubVal.obj (some "0.05 mg/kg") (some "CONFORME") (some "Reg. (CE) 396/2005") (some "Fungicida pós-colheita permitido em sucos.")),
      ("carbendazim", SubVal.obj (some "0.01 mg/kg") (some "BANIDO") (some "Reg. (CE) 396/2005") (some "Banido na UE — frequentemente detectado em FCOJ brasileiro no RASFF.")),
      ("thiabendazole", SubVal.obj (some "0.05 mg/kg") (some "CONFORME") (some "Reg. (CE) 396/2005") (some "MRL para sucos de frutas cítricas."))],
     alerts := ["⚠️ Carbendazim frequentemente detectado em FCOJ no RASFF — exigir laudo específico", "📋 Exige declaração de conformidade com Diretiva 2001/112/CE"],
     lmr_conformity_pct := none, lmr_banned_count := none,
     regulatory_correction_applied := none, data_source := "",
     data_source_note := none, needs_ai_update := none,
     last_updated := none, claude_research_status := none }),
  ("polpa_maracuja",
   { ncm_code := "2008.99.00", product_name := "Polpa de Maracujá Congelada",
     status := "ZOI APPROVED", risk_score := 88,
     max_residue_limits := [
      ("imidacloprid", SubVal.obj (some "0.01 mg/kg") (some "BANIDO") (some "Reg. Impl. (UE) 2018/783") (some "Banido na UE desde 2018.")),
      ("thiamethoxam", SubVal.obj (some "0.01 mg/kg") (some "BANIDO") (some "Reg. Impl. (UE) 2018/785") (some "Banido na UE desde 2018.")),
      ("lambda_cyhalothrin", SubVal.obj (some "0.05 mg/kg") (some "CONFORME") (some "Reg. (CE) 396/2005") (some "MRL para frutas tropicais."))],
     alerts := ["📌 Confirmar NCM com despachante: polpa pura s/ açúcar → 0811.90.90 (tarifa menor)", "🌡️ Manter cadeia fria -18°C sem interrupção"],
     lmr_conformity_pct := none, lmr_banned_count := none,
     regulatory_correction_applied := none, data_source := "",
     data_source_note := none, needs_ai_update := none,
     last_updated := none, claude_research_status := none }),
  ("manga_fresca",
   { ncm_code := "0804.50.00", product_name := "Manga Fresca (Tommy Atkins, Kent, Palmer)",
     status := "ZOI APPROVED", risk_score := 83,
     max_residue_limits := [
      ("imidacloprid", SubVal.obj (some "0.01 mg/kg") (some "BANIDO") (some "Reg. Impl. (UE) 2018/783") (some "Banido na UE — não usar no pomar.")),
      ("carbendazim", SubVal.obj (some "0.01 mg/kg") (some "BANIDO") (some "Reg. (CE) 396/2005") (some "Banido na UE — frequente no RASFF para manga brasileira.")),
      ("prochloraz", SubVal.obj (some "0.05 mg/kg") (some "CONFORME") (some "Reg. (CE) 396/2005") (some "Fungicida pós-colheita — respeitar carência.")),
      ("azoxystrobin", SubVal.obj (some "0.2 mg/kg") (some "CONFORME") (some "Reg. (CE) 396/2005") (some "MRL para manga."))],
     alerts := ["⚠️ Manga brasileira frequentemente notificada no RASFF por Carbendazim — laudo obrigatório", "📅 Atenção à sazonalidade tarifária: embarque Jun-Jul tem tarifa zero"],
     lmr_conformity_pct := none, lmr_banned_count := none,
     regulatory_correction_applied := none, data_source := "",
     data_source_note := none, needs_ai_update := none,
     last_updated := none, claude_research_status := none }),
  ("file_tilapia_congelado",
   { ncm_code := "0304.62.00", product_name := "Filé de Tilápia Congelado",
     status := "ZOI APPROVED", risk_score := 86,
     max_residue_limits := [
      ("oxytetracycline", SubVal.obj (some "0.1 mg/kg") (some "CONFORME") (some "Reg. (CE) 396/2005") (some "MRL músculo de peixe.")),
      ("malachite_green", SubVal.obj (some "0.002 mg/kg") (some "BANIDO") (some "Reg. (CE) 1950/2006") (some "Verde malaquita — banido. Detectado frequentemente em peixes de aquicultura.")),
      ("chloramphenicol", SubVal.obj (some "0.0003 mg/kg") (some "BANIDO") (some "Reg. (CE) 1950/2006") (some "Tolerância zero na UE."))],
     alerts := ["🚫 Verde malaquita (malachite green) banido na UE — controlar tratamentos no viveiro", "🌡️ Cadeia fria ≤ -18°C durante todo transporte e armazenagem"],
     lmr_conformity_pct := none, lmr_banned_count := none,
     regulatory_correction_applied := none, data_source := "",
     data_source_note := none, needs_ai_update := none,
     last_updated := none, claude_research_status := none }),
  ("carne_suina_congelada",
   { ncm_code := "0203.29.00", product_name := "Carne Suína Congelada (desossada)",
     status := "ZOI APPROVED", risk_score := 78,
     max_residue_limits := [
      ("ractopamine", SubVal.obj (some "0.000 mg/kg") (some "BANIDO") (some "Diretiva CE 96/22") (some "Beta-agonista banido na UE. Brasil mantém linha produtiva separada para UE.")),
      ("oxytetracycline", SubVal.obj (some "0.1 mg/kg") (some "CONFORME") (some "Reg. (CE) 396/2005") (some "MRL músculo suíno."))],
     alerts := ["🚫 Ractopamina proibida na UE — confirmar rastreabilidade de toda a cadeia de produção", "🐷 Exige certificado específico de zona livre de Febre Aftosa"],
     lmr_conformity_pct := none, lmr_banned_count := none,
     regulatory_correction_applied := none, data_source := "",
     data_source_note := none, needs_ai_update := none,
     last_updated := none, claude_research_status := none }),
  ("melao_fresco",
   { ncm_code := "0807.19.00", product_name := "Melão Fresco (Cantaloupe, Honeydew, Orange Flesh)",
     status := "ZOI APPROVED", risk_score := 85,
     max_residue_limits := [
      ("imidacloprid", SubVal.obj (some "0.01 mg/kg") (some "BANIDO") (some "Reg. Impl. (UE) 2018/783") (some "Banido. Melão do RN/CE frequentemente analisado no RASFF.")),
      ("chlorpyrifos", SubVal.obj (some "0.01 mg/kg") (some "BANIDO") (some "Reg. Impl. (UE) 2020/18") (some "Banido na UE desde 2020.")),
      ("metalaxyl", SubVal.obj (some "0.05 mg/kg") (some "CONFORME") (some "Reg. (CE) 396/2005") (some "MRL para cucurbitáceas."))],
     alerts := ["📅 Safra do Vale do São Francisco (RN/CE): nov-mar — coincide com janela de tarifa zero UE", "⚠️ Chlorpyrifos banido na UE desde 2020 — retirar do protocolo de defensivos"],
     lmr_conformity_pct := none, lmr_banned_count := none,
     regulatory_correction_applied := none, data_source := "",
     data_source_note := none, needs_ai_update := none,
     last_updated := none, claude_research_status := none }),
  ("uva_fresca_exportacao",
   { ncm_code := "0806.10.00", product_name := "Uva Fresca de Mesa (Brasil → Itália)",
     status := "ZOI APPROVED", risk_score := 80,
     max_residue_limits := [
      ("imidacloprid", SubVal.obj (some "0.01 mg/kg") (some "BANIDO") (some "Reg. Impl. (UE) 2018/783") (some "Banido na UE.")),
      ("iprodione", SubVal.obj (some "0.01 mg/kg") (some "BANIDO") (some "Reg. (CE) 396/2005") (some "Aprovação expirada na UE — MRL reduzido ao mínimo.")),
      ("azoxystrobin", SubVal.obj (some "2.0 mg/kg") (some "CONFORME") (some "Reg. (CE) 396/2005") (some "MRL uva de mesa.")),
      ("fludioxonil", SubVal.obj (some "2.0 mg/kg") (some "CONFORME") (some "Reg. (CE) 396/2005") (some "MRL uva de mesa."))],
     alerts := ["⚠️ Iprodione: MRL reduzido para 0.01 mg/kg na UE — substituir fungicida no protocolo", "🍇 Sujeito a controles reforçados por Reg. 2019/1793"],
     lmr_conformity_pct := none, lmr_banned_count := none,
     regulatory_correction_applied := none, data_source := "",
     data_source_note := none, needs_ai_update := none,
     last_updated := none, claude_research_status := none }),
  ("maca_italiana",
   { ncm_code := "0808.10.10", product_name := "Maçã Fresca Italiana (Golden, Fuji, Gala — importação)",
     status := "ZOI APPROVED", risk_score := 95,
     max_residue_limits := [
      ("diphenylamine", SubVal.obj (some "0.1 mg/kg") (some "CONFORME") (some "Reg. (CE) 396/2005") (some "Tratamento pós-colheita para maçã — limite aplicado.")),
      ("chlorpyrifos", SubVal.obj (some "0.01 mg/kg") (some "BANIDO") (some "Reg. Impl. (UE) 2020/18") (some "Banido na UE e com MRL mínimo — maçã italiana não utiliza."))],
     alerts := ["📋 LPCO do MAPA obrigatória — solicitar com antecedência mínima de 30 dias", "🍎 Maior crescimento de produto italiano para o Brasil em 2023 (+115.5%) — grande oportunidade"],
     lmr_conformity_pct := none, lmr_banned_count := none,
     regulatory_correction_applied := none, data_source := "",
     data_source_note := none, needs_ai_update := none,
     last_updated := none, claude_research_status := none }),
  ("mozzarella_fresca",
   { ncm_code := "0406.10.10", product_name := "Mozzarella Fresca Italiana (importação)",
     status := "ZOI APPROVED", risk_score := 88,
     max_residue_limits := [
      ("aflatoxin_m1", SubVal.obj (some "0.05 µg/kg") (some "CONFORME") (some "Reg. (CE) 1881/2006") (some "LMR leite/laticínios — UE e Brasil alinhados."))],
     alerts := ["📋 Estabelecimento italiano deve estar na lista positiva MAPA para exportação ao Brasil", "🏷️ Rotulagem em português obrigatória antes de comercializar", "❄️ Mozzarella fresca: cadeia fria 4-8°C; shelf life curto — logística reefer essencial"],
     lmr_conformity_pct := none, lmr_banned_count := none,
     regulatory_correction_applied := none, data_source := "",
     data_source_note := none, needs_ai_update := none,
     last_updated := none, claude_research_status := none }),
  ("parmigiano_reggiano",
   { ncm_code := "0406.90.20", product_name := "Parmigiano Reggiano / Grana Padano (importação)",
     status := "ZOI APPROVED", risk_score := 92,
     max_residue_limits := [
      ("aflatoxin_m1", SubVal.obj (some "0.05 µg/kg") (some "CONFORME") (some "Reg. (CE) 1881/2006") (some "LMR leite/laticínios maturados."))],
     alerts := ["🏷️ Uso do nome DOP protegido — verificar conformidade de rotulagem", "📋 Cadastro no MAPA obrigatório antes do primeiro embarque"],
     lmr_conformity_pct := none, lmr_banned_count := none,
     regulatory_correction_applied := none, data_source := "",
     data_source_note := none, needs_ai_update := none,
     last_updated := none, claude_research_status := none }),
  ("prosciutto_di_parma",
   { ncm_code := "1601.00.90", product_name := "Prosciutto di Parma / San Daniele (importação)",
     status := "ZOI APPROVED", risk_score := 88,
     max_residue_limits := [
      ("nitrites", SubVal.obj (some "150 mg/kg") (some "CONFORME") (some "Reg. (CE) 1333/2008") (some "MRL UE para nitritos em presunto curado. ANVISA: verificar equivalência."))],
     alerts := ["🏷️ Denominação DOP protegida — não pode ser chamado de \x27Prosciutto di Parma\x27 sem certificação do Consórcio", "⚗️ Verificar limites de nitratos/nitritos com ANVISA antes de comercializar"],
     lmr_conformity_pct := none, lmr_banned_count := none,
     regulatory_correction_applied := none, data_source := "",
     data_source_note := none, needs_ai_update := none,
     last_updated := none, claude_research_status := none }),
  ("tomate_pelado_italiano",
   { ncm_code := "2002.10.00", product_name := "Tomate Pelado Italiano em Conserva (importação)",
     status := "ZOI APPROVED", risk_score := 95,
     max_residue_limits := [
      ("lycopene_natural", SubVal.obj (some "N/A") (some "CONFORME") (some "N/A") (some "Composto natural do tomate — sem restrição.")),
      ("tin_inorganic", SubVal.obj (some "200 mg/kg") (some "CONFORME") (some "Reg. (CE) 1881/2006") (some "Limite para produtos em embalagem metálica."))],
     alerts := ["🏷️ Rotulagem em português obrigatória — importador responsável pela adequação", "📋 Registro ANVISA obrigatório antes de comercializar no Brasil"],
     lmr_conformity_pct := none, lmr_banned_count := none,
     regulatory_correction_applied := none, data_source := "",
     data_source_note := none, needs_ai_update := none,
     last_updated := none, claude_research_status := none }),
  ("trufa_fresca",
   { ncm_code := "0709.59.90", product_name := "Trufa Fresca / Congelada Italiana (importação)",
     status := "ZOI APPROVED", risk_score := 90,
     max_residue_limits := [
      ("heavy_metals_generic", SubVal.obj (some "< padrão ANVISA") (some "CONFORME") (some "Reg. (CE) 1881/2006") (some "Trufas não costumam apresentar contaminantes — produto premium de alto controle."))],
     alerts := ["✈️ Trufa fresca: vida útil 5-10 dias — transporte aéreo expresso essencial", "🔬 Laudo de identificação taxonômica obrigatório — risco de adulteração com espécies chinesas", "📋 LPCO MAPA: solicitar com antecedência"],
     lmr_conformity_pct := none, lmr_banned_count := none,
     regulatory_correction_applied := none, data_source := "",
     data_source_note := none, needs_ai_update := none,
     last_updated := none, claude_research_status := none }),
  ("kiwi_fresco_italiano",
   { ncm_code := "0810.50.00", product_name := "Kiwi Fresco Italiano (importação)",
     status := "ZOI APPROVED", risk_score := 93,
     max_residue_limits := [
      ("acetamiprid", SubVal.obj (some "0.1 mg/kg") (some "CONFORME") (some "Reg. (CE) 396/2005") (some "MRL kiwi.")),
      ("imidacloprid", SubVal.obj (some "0.01 mg/kg") (some "BANIDO") (some "Reg. Impl. (UE) 2018/783") (some "Banido UE — produtores italianos não utilizam."))],
     alerts := ["🔬 Psa (Pseudomonas syringae pv. actinidiae) é praga quarentenária A1 no Brasil — inspeção rigorosa", "❄️ Cadeia fria 0-4°C obrigatória para manter qualidade e shelf life"],
     lmr_conformity_pct := none, lmr_banned_count := none,
     regulatory_correction_applied := none, data_source := "",
     data_source_note := none, needs_ai_update := none,
     last_updated := none, claude_research_status := none }),
  ("pera_fresca_italiana",
   { ncm_code := "0808.30.00", product_name := "Pera Fresca Italiana (importação)",
     status := "ZOI APPROVED", risk_score := 93,
     max_residue_limits := [
      ("diphenylamine", SubVal.obj (some "0.1 mg/kg") (some "CONFORME") (some "Reg. (CE) 396/2005") (some "Tratamento pós-colheita anti-escaldo.")),
      ("captan", SubVal.obj (some "3.0 mg/kg") (some "CONFORME") (some "Reg. (CE) 396/2005") (some "MRL pera."))],
     alerts := ["📋 LPCO MAPA obrigatória — solicitar antes do embarque", "🔬 Erwinia amylovora (fogo bacteriano) é praga quarentenária A1 no Brasil"],
     lmr_conformity_pct := none, lmr_banned_count := none,
     regulatory_correction_applied := none, data_source := "",
     data_source_note := none, needs_ai_update := none,
     last_updated := none, claude_research_status := none })
]

/-! ## Claude research and the request coordinator (`get_product_data`) -/

/-- The possible terminal outcomes of one synchronous Claude research
attempt (source lines 321-462): success with some raw parsed record, or
the failure modes `anthropic.APITimeoutError`, `anthropic.APIError`, an
unparseable response (`parse_error`), and any unexpected exception. -/
inductive ResearchOutcome where
  | success (raw : ComplianceData)
  | timeout
  | apiError
  | parseError
  | unexpectedError
deriving DecidableEq

/-- Whether the outcome is one of the failure modes. -/
def ResearchOutcome.failed : ResearchOutcome → Bool
  | .success _ => false
  | _ => true

/-- The metadata enrichment applied to a successfully parsed research
result (source lines 434-442; `claude_model` and the default
`trade_route` are outside the modelled fields). -/
def enrich_claude_result (raw : ComplianceData) (now : Int) : ComplianceData :=
  { raw with data_source := "claude_ai_realtime",
             needs_ai_update := some false,
             last_updated := some (.valid now) }

/-- `research_product_via_claude` (source lines 321-462): with no API key
configured, or on any failure outcome, it returns `None` (every failure
mode is caught inside the function); on success the parsed record is
enriched and passed through `apply_regulatory_truth`. -/
def research_product_via_claude (apiKey : Bool) (outcome : ResearchOutcome)
    (now : Int) : Option ComplianceData :=
  if !apiKey then none
  else
    match outcome with
    | .success raw => some (apply_regulatory_truth (enrich_claude_result raw now))
    | _ => none

/-- ASCII letter test (model of the character class `str.title` treats as
word characters, on the ASCII range). -/
def isAsciiLetter (c : Char) : Bool :=
  ('a' ≤ c && c ≤ 'z') || ('A' ≤ c && c ≤ 'Z')

/-- Model of `str.title()`: upper-case a letter that follows a non-letter,
lower-case the other letters. -/
def titleCaseChars : Bool → List Char → List Char
  | _, [] => []
  | prevAlpha, c :: cs =>
    if isAsciiLetter c then
      (if prevAlpha then lowerChar c else upperChar c) :: titleCaseChars true cs
    else c :: titleCaseChars false cs

/-- `product_slug.replace("_", " ").replace("-", " ").title()` (line 1576). -/
def productDisplayName (slug : String) : String :=
  String.mk (titleCaseChars false
    (slug.data.map (fun c => if c = '_' || c = '-' then ' ' else c)))

/-- The result of one `get_product_data` call: the returned record, the
cache afterwards, whether a background research task was scheduled
(`background_tasks.add_task`), and whether the synchronous Claude
research was invoked. -/
structure LookupResult where
  record : ComplianceData
  cache : List (String × ComplianceData)
  backgroundScheduled : Bool
  researchCalled : Bool
deriving DecidableEq

/-- The annotation written on the reference-knowledge path (line 1600). -/
def reference_note : String :=
  "Dados de referência verificados. Clique \x27Atualizar via IA\x27 para pesquisa em tempo real."

/-- `get_product_data` (source lines 1563-1624).  The external research
call is an explicit `outcome` parameter; `apiKey` models
`ANTHROPIC_API_KEY` being non-empty and `bgAvail` models a
`BackgroundTasks` object being supplied.  On a cache hit the source
annotates and revalidates the cached dict in place, so the cache entry is
updated with the returned record. -/
def get_product_data (product_slug : String) (force_refresh : Bool)
    (apiKey : Bool) (bgAvail : Bool) (outcome : ResearchOutcome)
    (now ttl : Int) (cache : List (String × ComplianceData)) : LookupResult :=
  let slug := normalize_slug product_slug
  let product_name := productDisplayName product_slug
  match (if force_refresh then (none, cache) else get_cached cache now ttl slug) with
  | (some cached, cache1) =>
    let record := apply_regulatory_truth { cached with data_source_note := some "Dados em cache" }
    { record := record, cache := (slug, record) :: eraseKey slug cache1,
      backgroundScheduled := false, researchCalled := false }
  | (none, cache1) =>
    let researchCalled := force_refresh && apiKey
    match (if force_refresh && apiKey then research_product_via_claude apiKey outcome now else none) with
    | some claudeResult =>
      let sc := set_cached cache1 now slug claudeResult
      { record := sc.1, cache := sc.2,
        backgroundScheduled := false, researchCalled := researchCalled }
    | none =>
      match REFERENCE_DATA.lookup slug with
      | some ref =>
        let d := apply_regulatory_truth
          { ref with data_source := "reference_knowledge",
                     needs_ai_update := some true,
                     last_updated := some (.valid now),
                     data_source_note := some reference_note }
        let sc := set_cached cache1 now slug d
        { record := sc.1, cache := sc.2,
          backgroundScheduled := false, researchCalled := researchCalled }
      | none =>
        let d0 := { make_unknown_product_template product_name with
                      last_updated := some (.valid now) }
        if apiKey && bgAvail then
          { record := { d0 with
                claude_research_status := some "started_in_background",
                alerts := match d0.alerts with
                  | _ :: rest =>
                    ("🔍 Pesquisa Claude IA iniciada para \x27" ++ product_name ++ "\x27...") :: rest
                  | [] => [] },
            cache := cache1, backgroundScheduled := true, researchCalled := researchCalled }
        else if !apiKey then
          { record := { d0 with alerts := d0.alerts ++
                ["⚠️ Claude AI não configurado. Configure ANTHROPIC_API_KEY no Render."] },
            cache := cache1, backgroundScheduled := false, researchCalled := researchCalled }
        else
          { record := d0, cache := cache1,
            backgroundScheduled := false, researchCalled := researchCalled }


/-! ## Extraction engine (`_extract_text_from_blocks`, `_parse_compliance_json`,
source lines 277-318) -/

/-- JSON values (the possible results of `json.loads`).  Numeric literals
are modelled as integers; a fractional or exponent part makes the parse
fail in this model (the records at issue carry integer scores only). -/
inductive Json where
  | null
  | jbool (b : Bool)
  | jnum (n : Int)
  | jstr (s : String)
  | jarr (xs : List Json)
  | jobj (kvs : List (String × Json))

/-- The brace characters, named so they can be used in guards. -/
def lbraceChar : Char := Char.ofNat 123

/-- Closing brace. -/
def rbraceChar : Char := Char.ofNat 125

/-- JSON whitespace (the characters `json.loads` skips between tokens). -/
def jsonWs (c : Char) : Bool := c = ' ' || c = '\t' || c = '\n' || c = '\r'

/-- Skip JSON whitespace. -/
def skipJsonWs (cs : List Char) : List Char := cs.dropWhile jsonWs

/-- Hexadecimal digit table for `\uXXXX` escapes. -/
def hexTable : List (Char × Nat) :=
  [('0', 0), ('1', 1), ('2', 2), ('3', 3), ('4', 4), ('5', 5), ('6', 6),
   ('7', 7), ('8', 8), ('9', 9), ('a', 10), ('b', 11), ('c', 12), ('d', 13),
   ('e', 14), ('f', 15), ('A', 10), ('B', 11), ('C', 12), ('D', 13),
   ('E', 14), ('F', 15)]

/-- Single-character JSON string escapes. -/
def escChar (c : Char) : Option Char :=
  if c = '"' then some '"'
  else if c = '\\' then some '\\'
  else if c = '/' then some '/'
  else if c = 'b' then some '\x08'
  else if c = 'f' then some '\x0c'
  else if c = 'n' then some '\n'
  else if c = 'r' then some '\r'
  else if c = 't' then some '\t'
  else none

/-- Parse the body of a JSON string after its opening quote.  Like
`json.loads` in its default strict mode, an unescaped control character
is rejected; surrogate pairing of `\uXXXX` escapes is not modelled. -/
def parseJStrBody (acc : List Char) : List Char → Option (String × List Char)
  | [] => none
  | c :: cs =>
    if c = '"' then some (String.mk acc.reverse, cs)
    else if c = '\\' then
      match cs with
      | [] => none
      | e :: cs' =>
        if e = 'u' then
          match cs' with
          | h1 :: h2 :: h3 :: h4 :: rest =>
            match hexTable.lookup h1, hexTable.lookup h2,
                  hexTable.lookup h3, hexTable.lookup h4 with
            | some a, some b, some c2, some d =>
              parseJStrBody (Char.ofNat (((a * 16 + b) * 16 + c2) * 16 + d) :: acc) rest
            | _, _, _, _ => none
          | _ => none
        else
          match escChar e with
          | some r => parseJStrBody (r :: acc) cs'
          | none => none
    else if c.toNat < 32 then none
    else parseJStrBody (c :: acc) cs

/-- Parse a JSON integer literal (leading zeros rejected as in JSON; a
fractional or exponent part is outside this model and fails). -/
def parseJNum (cs : List Char) : Option (Int × List Char) :=
  let neg := cs.head? = some '-'
  let cs1 := if neg then cs.tail else cs
  let digits := cs1.takeWhile (fun c => c.isDigit)
  let rest := cs1.dropWhile (fun c => c.isDigit)
  if digits.isEmpty then none
  else if digits.length > 1 && digits.head? = some '0' then none
  else if rest.head? = some '.' || rest.head? = some 'e' || rest.head? = some 'E' then none
  else
    let n : Nat := digits.foldl (fun a c => a * 10 + (c.toNat - 48)) 0
    some (if neg then -(n : Int) else (n : Int), rest)

mutual

/-- Recursive-descent JSON value parser (model of `json.loads`); the fuel
bounds the recursion and is chosen large enough at the entry point. -/
def parseJVal : Nat → List Char → Option (Json × List Char)
  | 0, _ => none
  | fuel + 1, cs0 =>
    let cs := skipJsonWs cs0
    match cs with
    | [] => none
    | c :: r =>
      if c = '"' then (parseJStrBody [] r).map (fun p => (Json.jstr p.1, p.2))
      else if c = '[' then
        let t := skipJsonWs r
        if t.head? = some ']' then some (Json.jarr [], t.tail)
        else parseJElems fuel t []
      else if c = lbraceChar then
        let t := skipJsonWs r
        if t.head? = some rbraceChar then some (Json.jobj [], t.tail)
        else parseJMembers fuel t []
      else if ['n', 'u', 'l', 'l'].isPrefixOf cs then some (Json.null, cs.drop 4)
      else if ['t', 'r', 'u', 'e'].isPrefixOf cs then some (Json.jbool true, cs.drop 4)
      else if ['f', 'a', 'l', 's', 'e'].isPrefixOf cs then some (Json.jbool false, cs.drop 5)
      else (parseJNum cs).map (fun p => (Json.jnum p.1, p.2))

/-- Parse the remaining elements of a non-empty JSON array. -/
def parseJElems : Nat → List Char → List Json → Option (Json × List Char)
  | 0, _, _ => none
  | fuel + 1, cs, acc =>
    match parseJVal fuel cs with
    | none => none
    | some (v, rest) =>
      match skipJsonWs rest with
      | ',' :: r2 => parseJElems fuel r2 (v :: acc)
      | ']' :: r2 => some (Json.jarr (v :: acc).reverse, r2)
      | _ => none

/-- Parse the remaining members of a non-empty JSON object (the input
points at the opening quote of the next key). -/
def parseJMembers : Nat → List Char → List (String × Json) →
    Option (Json × List Char)
  | 0, _, _ => none
  | fuel + 1, cs, acc =>
    match cs with
    | c :: r =>
      if c = '"' then
        match parseJStrBody [] r with
        | none => none
        | some (key, rest) =>
          match skipJsonWs rest with
          | ':' :: r2 =>
            match parseJVal fuel r2 with
            | none => none
            | some (v, rest2) =>
              match skipJsonWs rest2 with
              | ',' :: r3 => parseJMembers fuel (skipJsonWs r3) ((key, v) :: acc)
              | c2 :: r3 =>
                if c2 = rbraceChar then some (Json.jobj ((key, v) :: acc).reverse, r3)
                else none
              | [] => none
          | _ => none
      else none
    | [] => none

end

/-- `json.loads`: parse one JSON document, allowing only whitespace around
it. -/
def jloads (s : String) : Option Json :=
  match parseJVal (s.data.length + 2) s.data with
  | some (v, rest) => if (skipJsonWs rest).isEmpty then some v else none
  | none => none

/-- Three backticks, the code-fence delimiter of the extraction regex. -/
def backtick3 : List Char := [Char.ofNat 96, Char.ofNat 96, Char.ofNat 96]

/-- Split the input at the first occurrence of three backticks, returning
the text before it and the text after it. -/
def splitFirstFence : List Char → Option (List Char × List Char)
  | [] => none
  | c :: r =>
    if backtick3.isPrefixOf (c :: r) then some ([], r.drop 2)
    else (splitFirstFence r).map (fun p => (c :: p.1, p.2))

/-- Model of the group captured by
`re.search(r'```(?:json)?\s*([\s\S]*?)\s*```', text)`: from the leftmost
fence whose suffix contains a closing fence, consume an optional `json`
tag and leading whitespace (the greedy `\s*`), capture lazily up to the
next fence, and give the trailing whitespace run to the second `\s*`.
When no closing fence follows a given opening fence the regex engine
moves on to the next candidate opening position, which is the next fence
occurrence. -/
def fencedGroupAux : Nat → List Char → Option (List Char)
  | 0, _ => none
  | fuel + 1, cs =>
    match splitFirstFence cs with
    | none => none
    | some (_, afterOpen) =>
      let t := if ['j', 's', 'o', 'n'].isPrefixOf afterOpen then afterOpen.drop 4 else afterOpen
      let t := t.dropWhile pyWs
      match splitFirstFence t with
      | some (grp, _) => some (dropEndWhile pyWs grp)
      | none => fencedGroupAux fuel afterOpen

/-- Entry point of the fenced-block search. -/
def fencedGroup (cs : List Char) : Option (List Char) :=
  fencedGroupAux cs.length cs

/-- The quoted field name the inline-object regex requires. -/
def ncmNeedle : List Char := ('"' :: ("ncm_code".data)) ++ ['"']

/-- Leftmost opening brace whose suffix contains the quoted `ncm_code`
needle; returns the suffix starting at that brace. -/
def ncmCandidate : List Char → Option (List Char)
  | [] => none
  | c :: r =>
    if c = lbraceChar && listContains r ncmNeedle then some (c :: r)
    else ncmCandidate r

/-- Model of the group captured by
`re.search(r'(\{[\s\S]*?"ncm_code"[\s\S]*?\})\s*$', text)`: because of the
trailing `\s*$`, the capture must end at the last non-whitespace character
of the text, which must be a closing brace; the capture then starts at the
leftmost opening brace with the quoted field name after it. -/
def ncmSearch (cs : List Char) : Option (List Char) :=
  let trimmed := dropEndWhile pyWs cs
  match trimmed.getLast? with
  | some c => if c = rbraceChar then ncmCandidate trimmed else none
  | none => none

/-- `_parse_compliance_json` (source lines 286-318).  Strategy 1: parse the
stripped text directly and accept a dict containing `ncm_code`; strategy
2: parse the stripped capture of the fenced-block regex and accept any
dict; strategy 3: parse the capture of the inline-object regex and accept
any dict; otherwise `None`.  A successful parse that the `isinstance`
guard rejects falls through to the next strategy, exactly as the Python
control flow does. -/
def parse_compliance_json (text_content : String) : Option Json :=
  let step3 :=
    match ncmSearch text_content.data with
    | some grp =>
      match jloads (String.mk grp) with
      | some (Json.jobj kvs) => some (Json.jobj kvs)
      | _ => none
    | none => none
  let step2 :=
    match fencedGroup text_content.data with
    | some grp =>
      match jloads (pyStrip (String.mk grp)) with
      | some (Json.jobj kvs) => some (Json.jobj kvs)
      | _ => step3
    | none => step3
  match jloads (pyStrip text_content) with
  | some (Json.jobj kvs) =>
    if (kvs.lookup "ncm_code").isSome then some (Json.jobj kvs) else step2
  | _ => step2

/-- A content block of a Claude SDK response: `text` is `some` when the
block object has a `text` attribute. -/
structure ContentBlock where
  text : Option String
deriving DecidableEq

/-- `_extract_text_from_blocks` (source lines 277-283): concatenate the
text of every block carrying one (the source also skips blocks whose text
is empty, which changes nothing under concatenation). -/
def extract_text_from_blocks (blocks : List ContentBlock) : String :=
  blocks.foldl (fun acc b => match b.text with | some t => acc ++ t | none => acc) ""

/-- `_parse_compliance_json` applied to a raw payload value under Python's
dynamic typing: its first operation, `text_content.strip()`, raises
`AttributeError` unless the payload is a string, because the `try`
blocks inside the function catch only `json.JSONDecodeError`. -/
def parse_compliance_json_payload (payload : Json) : Except String (Option Json) :=
  match payload with
  | Json.jstr s => Except.ok (parse_compliance_json s)
  | _ => Except.error "AttributeError"

/-! ## Concrete inputs used by the claims -/

/-- The response text of the extraction-robustness scenario: a fenced
`json` block holding the record. -/
def fencedTextC6 : String :=
  "```json\n\x7b\"ncm_code\":\"123\", \"risk_score\":80\x7d\n```"

/-- The scenario payload: a mapping with an `output` container holding one
event with that text. -/
def payloadC6 : Json :=
  Json.jobj [("output", Json.jarr [Json.jobj [("text", Json.jstr fencedTextC6)]])]

/-- The scenario content blocks (the shape the source actually consumes). -/
def blocksC6 : List ContentBlock := [{ text := some fencedTextC6 }]

/-- `CACHE_TTL_HOURS` with its default configuration value. -/
def CACHE_TTL_HOURS : Int := 24

/-- The cache TTL as seconds (`timedelta(hours=CACHE_TTL_HOURS)`). -/
def default_ttl_seconds : Int := CACHE_TTL_HOURS * 3600

/-- A one-entry cache whose record carries the given timestamp, used as a
concrete input for the cache claims. -/
def sampleCacheAt (st : Stamp) : List (String × ComplianceData) :=
  [("p", { make_unknown_product_template "Sample" with last_updated := some st })]


/-- A record claiming approval while carrying a conforming entry for a
banned substance: concrete input for the regulatory-truth claims. -/
def approvedWithBannedSubstance : ComplianceData :=
  { make_unknown_product_template "Witness" with
      status := "ZOI APPROVED", risk_score := 95,
      max_residue_limits :=
        [("Carbendazim", SubVal.obj (some "1 mg/kg") (some "CONFORME") none none),
         ("glyphosate", SubVal.obj (some "0.1 mg/kg") (some "CONFORME") none none)] }

/-- A record with 50 substance entries of which 21 match the authority
table (so 21 end banned and 29 conforming): at these counts the Python
float expression `int(((50 - 21) / 50) * 100)` yields 57 while the exact
integer percentage is 58. -/
def conformityFiftyRecord : ComplianceData :=
  { make_unknown_product_template "Fifty" with
      status := "ZOI APPROVED", risk_score := 95,
      max_residue_limits :=
        ((List.range 21).map (fun i =>
          ("carbendazim" ++ String.mk (List.replicate i 'z'),
           SubVal.obj (some "1 mg/kg") (some "CONFORME") none none))) ++
        ((List.range 29).map (fun i =>
          ("q" ++ String.mk (List.replicate i 'z'),
           SubVal.obj (some "1 mg/kg") (some "CONFORME") none none))) }

/-- The reference record for the key `"acai"`, used by the coordinator
scenario claims. -/
def acaiReference : ComplianceData :=
  (REFERENCE_DATA.lookup "acai").getD (make_unknown_product_template "acai")

/-! ## Lemmas and claim theorems -/

/-- `List.lookup` only returns pairs of the list. -/
theorem mem_of_lookup_eq_some {α β : Type} [BEq α] [LawfulBEq α]
    {l : List (α × β)} {a : α} {b : β} (h : l.lookup a = some b) : (a, b) ∈ l := by
  induction l with
  | nil => simp [List.lookup] at h
  | cons kv rest ih =>
    rw [List.lookup] at h
    split at h
    next heq =>
      injection h with h2
      rw [List.mem_cons]
      left
      rw [eq_of_beq heq, ← h2]
    next =>
      exact List.mem_cons_of_mem _ (ih h)

/-- Every value of the ASCII case table is itself case-table-free. -/
theorem lowerChar_lowerChar (c : Char) : lowerChar (lowerChar c) = lowerChar c := by
  unfold lowerChar
  cases h : asciiCaseTable.lookup c with
  | none => simp [h]
  | some v =>
    have hmem : (c, v) ∈ asciiCaseTable := mem_of_lookup_eq_some h
    have hv : ∀ p ∈ asciiCaseTable, asciiCaseTable.lookup p.2 = none := by decide
    simp [h, hv (c, v) hmem]

/-- Every entry of the authority table has the banned status. -/
theorem eu_banned_status : ∀ b ∈ EU_BANNED_SUBSTANCES, b.2.statusOf = some "BANIDO" := by
  decide

/-- A matched entry is replaced by an authority value, whose status is the
banned status. -/
theorem processEntry_statusOf (k : String) (v : SubVal)
    (h : (findBanned k).isSome = true) :
    (processEntry k v).statusOf = some "BANIDO" := by
  obtain ⟨b, hb⟩ := Option.isSome_iff_exists.mp h
  have hmem : b ∈ EU_BANNED_SUBSTANCES := List.mem_of_find?_eq_some hb
  unfold processEntry
  rw [hb]
  exact eu_banned_status b hmem

/-- A value with banned status satisfies the banned-count predicate. -/
theorem isBanido_of_statusOf (v : SubVal) (h : v.statusOf = some "BANIDO") :
    v.isBanido = true := by
  cases v with
  | obj l s r n => simp [SubVal.statusOf] at h; simp [SubVal.isBanido, h]
  | raw s => simp [SubVal.statusOf] at h

/-- The validator always replaces `max_residue_limits` with the processed
mapping (final line of `apply_regulatory_truth`). -/
theorem apply_regulatory_truth_mrl (d : ComplianceData) :
    (apply_regulatory_truth d).max_residue_limits =
      d.max_residue_limits.map (fun kv => (kv.1, processEntry kv.1 kv.2)) := rfl

/-- The validator never touches `data_source`. -/
theorem apply_regulatory_truth_data_source (d : ComplianceData) :
    (apply_regulatory_truth d).data_source = d.data_source := by
  cases hb : d.max_residue_limits.any (fun kv => (findBanned kv.1).isSome) <;>
    cases hc : d.max_residue_limits.any (fun kv => entryCorrected kv.1 kv.2) <;>
    simp [apply_regulatory_truth, hb, hc]

/-- The validator never touches `data_source_note`. -/
theorem apply_regulatory_truth_data_source_note (d : ComplianceData) :
    (apply_regulatory_truth d).data_source_note = d.data_source_note := by
  cases hb : d.max_residue_limits.any (fun kv => (findBanned kv.1).isSome) <;>
    cases hc : d.max_residue_limits.any (fun kv => entryCorrected kv.1 kv.2) <;>
    simp [apply_regulatory_truth, hb, hc]

/-- When some entry matches the authority table and the processed mapping
has a positive banned count, the returned overall status contains no
approved-class value. -/
theorem apply_regulatory_truth_status_not_approved (d : ComplianceData)
    (hb : d.max_residue_limits.any (fun kv => (findBanned kv.1).isSome) = true)
    (hc : 0 < ((d.max_residue_limits.map (fun kv => (kv.1, processEntry kv.1 kv.2))).filter
        (fun kv => kv.2.isBanido)).length) :
    strContains (pyUpper (apply_regulatory_truth d).status) "APPROVED" = false := by
  have hd : decide (0 < ((d.max_residue_limits.map (fun kv => (kv.1, processEntry kv.1 kv.2))).filter
      (fun kv => kv.2.isBanido)).length) = true := decide_eq_true hc
  cases hcor : d.max_residue_limits.any (fun kv => entryCorrected kv.1 kv.2) <;>
    cases hap : strContains (pyUpper d.status) "APPROVED" <;>
    simp [apply_regulatory_truth, hb, hcor, hap, hd] <;> decide

/-- C1.  For every record returned by `apply_regulatory_truth`, any entry of
`max_residue_limits` whose key matches an authority-table entry under the
bidirectional substring containment test carries status exactly
`"BANIDO"`, and the overall status of the returned record contains no
approved-class value (no `"APPROVED"` in its upper-casing) — in
particular also when the input claimed an approved status with the
substance marked conforming. -/
theorem regulatory_truth_banned_invariant (d : ComplianceData) (k : String) (v : SubVal)
    (hmem : (k, v) ∈ (apply_regulatory_truth d).max_residue_limits)
    (hmatch : ∃ b ∈ EU_BANNED_SUBSTANCES, bannedMatch k b.1 = true) :
    v.statusOf = some "BANIDO" ∧
    strContains (pyUpper (apply_regulatory_truth d).status) "APPROVED" = false := by
  have hfind : (findBanned k).isSome = true := by
    unfold findBanned
    rw [List.find?_isSome]
    obtain ⟨b, hbmem, hbm⟩ := hmatch
    exact ⟨b, hbmem, hbm⟩
  rw [apply_regulatory_truth_mrl] at hmem
  obtain ⟨kv0, hkv0, heq⟩ := List.mem_map.mp hmem
  have hk : kv0.1 = k := congrArg Prod.fst heq
  have hv : v = processEntry k kv0.2 := by
    have := congrArg Prod.snd heq
    simp at this
    rw [← this, hk]
  constructor
  · rw [hv]; exact processEntry_statusOf k kv0.2 hfind
  · -- the banned entry forces `has_banned` and a positive banned count,
    -- so an approved-class status is rewritten to "REQUIRES ATTENTION"
    have hhb : d.max_residue_limits.any (fun kv => (findBanned kv.1).isSome) = true := by
      rw [List.any_eq_true]
      refine ⟨kv0, hkv0, ?_⟩
      rw [hk]; exact hfind
    have hbanido : ((d.max_residue_limits.map (fun kv => (kv.1, processEntry kv.1 kv.2))).filter
        (fun kv => kv.2.isBanido)).length > 0 := by
      have hvmem : (k, v) ∈ (d.max_residue_limits.map (fun kv => (kv.1, processEntry kv.1 kv.2))).filter
          (fun kv => kv.2.isBanido) := by
        rw [List.mem_filter]
        refine ⟨hmem, ?_⟩
        apply isBanido_of_statusOf
        rw [hv]
        exact processEntry_statusOf k kv0.2 hfind
      exact List.length_pos.mpr (List.ne_nil_of_mem hvmem)
    exact apply_regulatory_truth_status_not_approved d hhb hbanido

/-- C1 witness at a concrete record claiming approval with conforming
carbendazim. -/
theorem regulatory_truth_banned_invariant_witness :
    SubVal.statusOf (SubVal.obj (some "0.01 mg/kg") (some "BANIDO")
        (some "Reg. (CE) 396/2005")
        (some "Banido na UE — mutagênico e tóxico para reprodução.")) = some "BANIDO" ∧
    strContains (pyUpper (apply_regulatory_truth approvedWithBannedSubstance).status) "APPROVED" = false :=
  regulatory_truth_banned_invariant approvedWithBannedSubstance "Carbendazim"
    (SubVal.obj (some "0.01 mg/kg") (some "BANIDO") (some "Reg. (CE) 396/2005")
      (some "Banido na UE — mutagênico e tóxico para reprodução."))
    (by decide) (by decide)

/-- A map by a function that fixes every member is the identity. -/
theorem list_map_eq_self {α : Type} {f : α → α} :
    ∀ {l : List α}, (∀ x ∈ l, f x = x) → l.map f = l := by
  intro l
  induction l with
  | nil => intro _; rfl
  | cons a t ih =>
    intro h
    simp only [List.map_cons]
    rw [h a (List.mem_cons_self a t), ih (fun x hx => h x (List.mem_cons_of_mem a hx))]

/-- Processing an already processed entry changes nothing. -/
theorem processEntry_processEntry (k : String) (v : SubVal) :
    processEntry k (processEntry k v) = processEntry k v := by
  cases h : findBanned k <;> simp [processEntry, h]

/-- An already processed entry never triggers the corrected flag again. -/
theorem entryCorrected_processEntry (k : String) (v : SubVal) :
    entryCorrected k (processEntry k v) = false := by
  cases h : findBanned k with
  | none => simp [entryCorrected, h]
  | some b =>
    have hmem : b ∈ EU_BANNED_SUBSTANCES := List.mem_of_find?_eq_some h
    have hst : b.2.statusOf = some "BANIDO" := eu_banned_status b hmem
    have hpe : processEntry k v = b.2 := by simp [processEntry, h]
    rw [hpe]
    cases hb2 : b.2 with
    | obj l s r n =>
      rw [hb2] at hst
      simp [SubVal.statusOf] at hst
      simp [entryCorrected, h, hb2, hst]
    | raw s =>
      rw [hb2] at hst
      simp [SubVal.statusOf] at hst

/-- When some entry matches the authority table and the processed mapping
has a positive banned count, the returned risk score is at most 79. -/
theorem apply_regulatory_truth_risk_le (d : ComplianceData)
    (hb : d.max_residue_limits.any (fun kv => (findBanned kv.1).isSome) = true)
    (hc : 0 < ((d.max_residue_limits.map (fun kv => (kv.1, processEntry kv.1 kv.2))).filter
        (fun kv => kv.2.isBanido)).length) :
    (apply_regulatory_truth d).risk_score ≤ 79 := by
  have hd : decide (0 < ((d.max_residue_limits.map (fun kv => (kv.1, processEntry kv.1 kv.2))).filter
      (fun kv => kv.2.isBanido)).length) = true := decide_eq_true hc
  by_cases hr : (79 : Int) < d.risk_score <;>
    cases hcor : d.max_residue_limits.any (fun kv => entryCorrected kv.1 kv.2) <;>
    simp [apply_regulatory_truth, hb, hcor, hd, hr] <;> omega

/-- When some entry matches the authority table and the processed mapping
has a positive banned count, the attached conformity percentage is the
float-computed truncation of `((total - banned) / total) * 100`. -/
theorem apply_regulatory_truth_conformity (d : ComplianceData)
    (hb : d.max_residue_limits.any (fun kv => (findBanned kv.1).isSome) = true)
    (hc : 0 < ((d.max_residue_limits.map (fun kv => (kv.1, processEntry kv.1 kv.2))).filter
        (fun kv => kv.2.isBanido)).length) :
    (apply_regulatory_truth d).lmr_conformity_pct =
      some (pyIntTrunc (pyFloatMul100 (pyFloatDiv
        ((d.max_residue_limits.map (fun kv => (kv.1, processEntry kv.1 kv.2))).length -
         ((d.max_residue_limits.map (fun kv => (kv.1, processEntry kv.1 kv.2))).filter
            (fun kv => kv.2.isBanido)).length)
        (d.max_residue_limits.map (fun kv => (kv.1, processEntry kv.1 kv.2))).length))) := by
  have htot : 0 < (d.max_residue_limits.map (fun kv => (kv.1, processEntry kv.1 kv.2))).length :=
    lt_of_lt_of_le hc (List.length_filter_le _ _)
  have htot' : 0 < d.max_residue_limits.length := by simpa using htot
  cases hcor : d.max_residue_limits.any (fun kv => entryCorrected kv.1 kv.2) <;>
    simp [apply_regulatory_truth, hb, hcor, htot']

/-- C8 counterexample.  At the concrete record with 50 entries and 21
banned matches, the returned conformity percentage is 57 — the value of
the source's float expression `int(((50 - 21) / 50) * 100)` — whereas
the exact integer percentage of `(total - banned) / total` over the
returned mapping is 58, so the claim's conformity equation fails. -/
theorem regulatory_truth_conformity_float_counterexample :
    (apply_regulatory_truth conformityFiftyRecord).lmr_conformity_pct = some 57 ∧
    ((apply_regulatory_truth conformityFiftyRecord).max_residue_limits.length -
     ((apply_regulatory_truth conformityFiftyRecord).max_residue_limits.filter
        (fun kv => kv.2.isBanido)).length) * 100 /
      (apply_regulatory_truth conformityFiftyRecord).max_residue_limits.length = 58 := by
  constructor
  · decide
  · decide

/-- C8 amended.  When at least one substance entry matches a banned
authority-table entry, the validated record's risk score is capped at 79
and it carries a conformity percentage equal to the IEEE-754
float-computed truncation `int(((total − banned) / total) * 100)` over
the returned mapping — which can differ by one unit from the exact
integer percentage. -/
theorem regulatory_truth_risk_cap_and_conformity (d : ComplianceData)
    (hmatch : ∃ kv ∈ d.max_residue_limits, (findBanned kv.1).isSome = true) :
    (apply_regulatory_truth d).risk_score ≤ 79 ∧
    (apply_regulatory_truth d).lmr_conformity_pct =
      some (pyIntTrunc (pyFloatMul100 (pyFloatDiv
        ((apply_regulatory_truth d).max_residue_limits.length -
         ((apply_regulatory_truth d).max_residue_limits.filter
            (fun kv => kv.2.isBanido)).length)
        (apply_regulatory_truth d).max_residue_limits.length))) := by
  obtain ⟨kv, hkv, hfind⟩ := hmatch
  have hb : d.max_residue_limits.any (fun kv => (findBanned kv.1).isSome) = true := by
    rw [List.any_eq_true]; exact ⟨kv, hkv, hfind⟩
  have hc : 0 < ((d.max_residue_limits.map (fun kv => (kv.1, processEntry kv.1 kv.2))).filter
      (fun kv => kv.2.isBanido)).length := by
    have hmem : (kv.1, processEntry kv.1 kv.2) ∈
        (d.max_residue_limits.map (fun kv => (kv.1, processEntry kv.1 kv.2))).filter
          (fun kv => kv.2.isBanido) := by
      rw [List.mem_filter]
      constructor
      · exact List.mem_map.mpr ⟨kv, hkv, rfl⟩
      · exact isBanido_of_statusOf _ (processEntry_statusOf kv.1 kv.2 hfind)
    exact List.length_pos.mpr (List.ne_nil_of_mem hmem)
  refine ⟨apply_regulatory_truth_risk_le d hb hc, ?_⟩
  rw [apply_regulatory_truth_mrl]
  exact apply_regulatory_truth_conformity d hb hc

/-- C8 amended witness at the concrete approved-with-banned-substance
record (2 entries, 1 banned: the float expression gives exactly 50). -/
theorem regulatory_truth_risk_cap_and_conformity_witness :
    (apply_regulatory_truth approvedWithBannedSubstance).risk_score ≤ 79 ∧
    (apply_regulatory_truth approvedWithBannedSubstance).lmr_conformity_pct =
      some (pyIntTrunc (pyFloatMul100 (pyFloatDiv
        ((apply_regulatory_truth approvedWithBannedSubstance).max_residue_limits.length -
         ((apply_regulatory_truth approvedWithBannedSubstance).max_residue_limits.filter
            (fun kv => kv.2.isBanido)).length)
        (apply_regulatory_truth approvedWithBannedSubstance).max_residue_limits.length))) :=
  regulatory_truth_risk_cap_and_conformity approvedWithBannedSubstance
    ⟨("Carbendazim", SubVal.obj (some "1 mg/kg") (some "CONFORME") none none),
      by decide, by decide⟩

/-- The status containment check is false on the forced replacement value. -/
theorem requires_attention_not_approved :
    strContains (pyUpper "REQUIRES ATTENTION") "APPROVED" = false := by decide

/-- C10.  `apply_regulatory_truth` is idempotent: revalidating an already
validated record — as happens every time a cached record is re-served —
changes nothing: not the corrected substance statuses, not the capped
risk score, not the conformity percentage, and not the correction flag. -/
theorem apply_regulatory_truth_idempotent (d : ComplianceData) :
    apply_regulatory_truth (apply_regulatory_truth d) = apply_regulatory_truth d := by
  have hmapidem : (d.max_residue_limits.map (fun kv => (kv.1, processEntry kv.1 kv.2))).map
        (fun kv => (kv.1, processEntry kv.1 kv.2))
      = d.max_residue_limits.map (fun kv => (kv.1, processEntry kv.1 kv.2)) := by
    rw [List.map_map]
    have : ∀ kv : String × SubVal,
        ((fun kv : String × SubVal => (kv.1, processEntry kv.1 kv.2)) ∘
         (fun kv : String × SubVal => (kv.1, processEntry kv.1 kv.2))) kv
          = (fun kv : String × SubVal => (kv.1, processEntry kv.1 kv.2)) kv := by
      intro kv
      simp [Function.comp, processEntry_processEntry]
    exact congrArg (fun f => d.max_residue_limits.map f) (funext this)
  have hany : ∀ l : List (String × SubVal),
      ((l.map (fun kv => (kv.1, processEntry kv.1 kv.2))).any
        (fun kv => (findBanned kv.1).isSome)) = (l.any (fun kv => (findBanned kv.1).isSome)) := by
    intro l
    rw [List.any_map]
    rfl
  have hcor2 : ∀ l : List (String × SubVal),
      ((l.map (fun kv => (kv.1, processEntry kv.1 kv.2))).any
        (fun kv => entryCorrected kv.1 kv.2)) = false := by
    intro l
    rw [List.any_map]
    rw [List.any_eq_false]
    intro kv _
    simp [Function.comp, entryCorrected_processEntry]
  by_cases hb : d.max_residue_limits.any (fun kv => (findBanned kv.1).isSome) = true
  case neg =>
    have hb' : d.max_residue_limits.any (fun kv => (findBanned kv.1).isSome) = false := by
      revert hb
      cases d.max_residue_limits.any (fun kv => (findBanned kv.1).isSome) <;> simp
    have hnone : ∀ kv ∈ d.max_residue_limits, (findBanned kv.1).isSome = false := by
      intro kv hkv
      have h2 := List.any_eq_false.mp hb' kv hkv
      revert h2
      cases (findBanned kv.1).isSome <;> simp
    have hcor : d.max_residue_limits.any (fun kv => entryCorrected kv.1 kv.2) = false := by
      rw [List.any_eq_false]
      intro kv hkv
      simp [entryCorrected, hnone kv hkv]
    have hid : d.max_residue_limits.map (fun kv => (kv.1, processEntry kv.1 kv.2))
        = d.max_residue_limits := by
      apply list_map_eq_self
      intro kv hkv
      have : findBanned kv.1 = none := Option.not_isSome_iff_eq_none.mp (by simp [hnone kv hkv])
      simp [processEntry, this]
    have h1 : apply_regulatory_truth d = d := by
      simp [apply_regulatory_truth, hb', hcor, hid]
    rw [h1, h1]
  case pos =>
    cases hcd : d.max_residue_limits.any (fun kv => entryCorrected kv.1 kv.2) <;>
      cases hC : (decide (0 < ((d.max_residue_limits.map (fun kv => (kv.1, processEntry kv.1 kv.2))).filter
          (fun kv => kv.2.isBanido)).length) && strContains (pyUpper d.status) "APPROVED") <;>
      cases hR : (decide (0 < ((d.max_residue_limits.map (fun kv => (kv.1, processEntry kv.1 kv.2))).filter
          (fun kv => kv.2.isBanido)).length) && decide ((79 : Int) < d.risk_score)) <;>
      simp [apply_regulatory_truth, hb, hcd, hC, hR, hany, hcor2, hmapidem,
            requires_attention_not_approved]

/-- The head of a `dropWhile` result fails the predicate. -/
theorem head?_dropWhile_not {p : Char → Bool} :
    ∀ (l : List Char) (c : Char), (l.dropWhile p).head? = some c → p c = false := by
  intro l
  induction l with
  | nil => intro c h; simp [List.dropWhile] at h
  | cons a t ih =>
    intro c h
    by_cases hp : p a = true
    · rw [List.dropWhile_cons, if_pos hp] at h
      exact ih c h
    · rw [List.dropWhile_cons, if_neg hp] at h
      simp at h
      rw [← h]
      revert hp
      cases p a <;> simp

/-- A non-empty `dropWhile` result keeps the last element of its input. -/
theorem getLast?_dropWhile {p : Char → Bool} :
    ∀ (l : List Char), l.dropWhile p ≠ [] → (l.dropWhile p).getLast? = l.getLast? := by
  intro l
  induction l with
  | nil => intro h; simp [List.dropWhile] at h
  | cons a t ih =>
    intro h
    by_cases hp : p a = true
    · rw [List.dropWhile_cons, if_pos hp] at h ⊢
      have ht : t ≠ [] := by
        intro he
        rw [he] at h
        simp [List.dropWhile] at h
      rw [ih h]
      cases t with
      | nil => exact absurd rfl ht
      | cons b t' => rw [List.getLast?_cons_cons]
    · rw [List.dropWhile_cons, if_neg hp]

/-- Elements survive `pyStripChars` only if they were in the input. -/
theorem mem_pyStripChars {l : List Char} {c : Char} (h : c ∈ pyStripChars l) : c ∈ l := by
  unfold pyStripChars dropEndWhile at h
  rw [List.mem_reverse] at h
  have h2 := (List.dropWhile_sublist _).mem h
  rw [List.mem_reverse] at h2
  exact (List.dropWhile_sublist _).mem h2

/-- The first character of a stripped list is not whitespace. -/
theorem pyStripChars_head_not_ws (l : List Char) (c : Char)
    (h : (pyStripChars l).head? = some c) : pyWs c = false := by
  unfold pyStripChars dropEndWhile at h
  rw [List.head?_reverse] at h
  have hne : (l.dropWhile pyWs).reverse.dropWhile pyWs ≠ [] := by
    intro he
    rw [he] at h
    simp at h
  rw [getLast?_dropWhile _ hne, List.getLast?_reverse] at h
  exact head?_dropWhile_not l c h

/-- The last character of a stripped list is not whitespace. -/
theorem pyStripChars_getLast_not_ws (l : List Char) (c : Char)
    (h : (pyStripChars l).getLast? = some c) : pyWs c = false := by
  unfold pyStripChars dropEndWhile at h
  rw [List.getLast?_reverse] at h
  exact head?_dropWhile_not _ c h

/-- A list whose two ends are not whitespace is unchanged by stripping. -/
theorem pyStripChars_eq_self (l : List Char)
    (h1 : ∀ c, l.head? = some c → pyWs c = false)
    (h2 : ∀ c, l.getLast? = some c → pyWs c = false) : pyStripChars l = l := by
  have hd : l.dropWhile pyWs = l := by
    cases l with
    | nil => rfl
    | cons a t =>
      rw [List.dropWhile_cons, if_neg (by simp [h1 a rfl])]
  rw [pyStripChars, hd]
  unfold dropEndWhile
  have hrev : l.reverse.dropWhile pyWs = l.reverse := by
    cases hr : l.reverse with
    | nil => rfl
    | cons a t =>
      have ha : l.getLast? = some a := by rw [← List.head?_reverse, hr]; rfl
      rw [List.dropWhile_cons, if_neg (by simp [h2 a ha])]
  rw [hrev, List.reverse_reverse]

/-- Lower-casing fixes the image of the separator substitution of a
lower-cased character. -/
theorem lowerChar_substDashSpace_lowerChar (y : Char) :
    lowerChar (substDashSpace (lowerChar y)) = substDashSpace (lowerChar y) := by
  by_cases h : (lowerChar y = '-' || lowerChar y = ' ') = true
  · have hs : substDashSpace (lowerChar y) = '_' := by simp [substDashSpace, h]
    rw [hs]
    decide
  · have h' : (lowerChar y = '-' || lowerChar y = ' ') = false := by
      revert h; cases (lowerChar y = '-' || lowerChar y = ' ') <;> simp
    have hs : substDashSpace (lowerChar y) = lowerChar y := by simp [substDashSpace, h']
    rw [hs]
    exact lowerChar_lowerChar y

/-- The separator substitution is idempotent. -/
theorem substDashSpace_substDashSpace (c : Char) :
    substDashSpace (substDashSpace c) = substDashSpace c := by
  by_cases h : (c = '-' || c = ' ') = true
  · have hs : substDashSpace c = '_' := by simp [substDashSpace, h]
    rw [hs]
    decide
  · have h' : (c = '-' || c = ' ') = false := by
      revert h; cases (c = '-' || c = ' ') <;> simp
    have hs : substDashSpace c = c := by simp [substDashSpace, h']
    rw [hs, hs]

/-- The separator substitution maps non-whitespace to non-whitespace. -/
theorem pyWs_substDashSpace (c : Char) (h : pyWs c = false) :
    pyWs (substDashSpace c) = false := by
  by_cases hc : (c = '-' || c = ' ') = true
  · have hs : substDashSpace c = '_' := by simp [substDashSpace, hc]
    rw [hs]
    decide
  · have h' : (c = '-' || c = ' ') = false := by
      revert hc; cases (c = '-' || c = ' ') <;> simp
    have hs : substDashSpace c = c := by simp [substDashSpace, h']
    rw [hs]
    exact h

/-- The slug canonicalization is idempotent. -/
theorem canonSlug_canonSlug (s : String) : canonSlug (canonSlug s) = canonSlug s := by
  unfold canonSlug
  have hA : ((pyStripChars (s.data.map lowerChar)).map substDashSpace).map lowerChar
      = (pyStripChars (s.data.map lowerChar)).map substDashSpace := by
    apply list_map_eq_self
    intro c hc
    obtain ⟨x, hx, hxc⟩ := List.mem_map.mp hc
    obtain ⟨y, _, hyx⟩ := List.mem_map.mp (mem_pyStripChars hx)
    rw [← hxc, ← hyx]
    exact lowerChar_substDashSpace_lowerChar y
  have hhead : ∀ c, ((pyStripChars (s.data.map lowerChar)).map substDashSpace).head? = some c →
      pyWs c = false := by
    intro c hc
    rw [List.head?_map] at hc
    cases hx : (pyStripChars (s.data.map lowerChar)).head? with
    | none => rw [hx] at hc; simp at hc
    | some x =>
      rw [hx] at hc
      simp at hc
      rw [← hc]
      exact pyWs_substDashSpace x (pyStripChars_head_not_ws _ x hx)
  have hlast : ∀ c, ((pyStripChars (s.data.map lowerChar)).map substDashSpace).getLast? = some c →
      pyWs c = false := by
    intro c hc
    rw [List.getLast?_map] at hc
    cases hx : (pyStripChars (s.data.map lowerChar)).getLast? with
    | none => rw [hx] at hc; simp at hc
    | some x =>
      rw [hx] at hc
      simp at hc
      rw [← hc]
      exact pyWs_substDashSpace x (pyStripChars_getLast_not_ws _ x hx)
  show String.mk ((pyStripChars (((pyStripChars (s.data.map lowerChar)).map substDashSpace).map
      lowerChar)).map substDashSpace) = _
  rw [hA, pyStripChars_eq_self _ hhead hlast]
  congr 1
  apply list_map_eq_self
  intro c hc
  obtain ⟨x, _, hxc⟩ := List.mem_map.mp hc
  rw [← hxc]
  exact substDashSpace_substDashSpace x

/-- Every alias target is already canonical and is not itself an alias key. -/
theorem alias_targets_canonical :
    ∀ p ∈ SLUG_ALIASES, canonSlug p.2 = p.2 ∧ SLUG_ALIASES.lookup p.2 = none := by
  decide

/-- C9.  `normalize_slug` is total (it is a Lean function) and idempotent on
every input string, and every alias-resolution target is a fixed point. -/
theorem normalize_slug_idempotent :
    (∀ s : String, normalize_slug (normalize_slug s) = normalize_slug s) ∧
    (∀ p ∈ SLUG_ALIASES, normalize_slug p.2 = p.2) := by
  constructor
  · intro s
    simp only [normalize_slug]
    cases h : SLUG_ALIASES.lookup (canonSlug s) with
    | none =>
      simp only [h, Option.getD_none]
      rw [canonSlug_canonSlug, h]
      rfl
    | some t =>
      simp only [h, Option.getD_some]
      have hmem : (canonSlug s, t) ∈ SLUG_ALIASES := mem_of_lookup_eq_some h
      obtain ⟨hct, hlt⟩ := alias_targets_canonical _ hmem
      rw [hct, hlt]
      rfl
  · intro p hp
    obtain ⟨hct, hlt⟩ := alias_targets_canonical p hp
    simp only [normalize_slug]
    rw [hct, hlt]
    rfl

/-- C9 witness: idempotence at a concrete aliased slug and fixed-point
behavior of a concrete alias target. -/
theorem normalize_slug_idempotent_witness :
    normalize_slug (normalize_slug " Soja-Graos ") = normalize_slug " Soja-Graos " ∧
    normalize_slug "acai" = "acai" :=
  ⟨normalize_slug_idempotent.1 " Soja-Graos ",
   normalize_slug_idempotent.2 ("açaí", "acai") (by decide)⟩

/-- Deleting a key removes it from the association list. -/
theorem lookup_eraseKey (slug : String) (cache : List (String × ComplianceData)) :
    (eraseKey slug cache).lookup slug = none := by
  induction cache with
  | nil => rfl
  | cons kv rest ih =>
    unfold eraseKey at ih ⊢
    by_cases h : (kv.1 != slug) = true
    · rw [List.filter_cons, if_pos h]
      rw [List.lookup]
      have : (slug == kv.1) = false := by
        cases hb : (slug == kv.1)
        · rfl
        · have he : slug = kv.1 := eq_of_beq hb
          rw [he] at h
          simp at h
      rw [this]
      exact ih
    · rw [List.filter_cons, if_neg h]
      exact ih

/-- C4 counterexample.  At the exact TTL boundary — entry stored at 0, read
at `now` with `now - storedAt` equal to the TTL, so the age does not
exceed the TTL — the claim predicts the entry is returned, but the source
condition `now - cached_time < timedelta(...)` fails and the read is a
miss. -/
theorem get_cached_boundary_counterexample :
    (get_cached (sampleCacheAt (Stamp.valid 0)) default_ttl_seconds default_ttl_seconds "p").1 = none ∧
    ¬(default_ttl_seconds - 0 > default_ttl_seconds) := by
  constructor
  · decide
  · decide

/-- C4 amended.  For an entry with a parseable timestamp the read misses
exactly when the age is at least (not strictly greater than) the TTL and
returns the stored entry otherwise — in particular the stated behavior
holds at TTL ± 1 second — and an entry whose timestamp cannot be parsed
is treated as a miss, never served and never an error. -/
theorem get_cached_freshness :
    (∀ (cache : List (String × ComplianceData)) (now ttl : Int) (slug : String)
        (d : ComplianceData) (t : Int),
      cache.lookup slug = some d → d.last_updated = some (Stamp.valid t) →
      (((get_cached cache now ttl slug).1 = none ↔ ttl ≤ now - t) ∧
       (now - t < ttl → (get_cached cache now ttl slug).1 = some d))) ∧
    (∀ (cache : List (String × ComplianceData)) (now ttl : Int) (slug : String)
        (d : ComplianceData),
      cache.lookup slug = some d → d.last_updated = some Stamp.malformed →
      (get_cached cache now ttl slug).1 = none) := by
  constructor
  · intro cache now ttl slug d t h1 h2
    have hg : get_cached cache now ttl slug =
        if now - t < ttl then (some d, cache) else (none, eraseKey slug cache) := by
      simp only [get_cached, h1, h2]
    rw [hg]
    constructor
    · by_cases hf : now - t < ttl
      · rw [if_pos hf]
        simp
        omega
      · rw [if_neg hf]
        simp
        omega
    · intro hf
      rw [if_pos hf]
  · intro cache now ttl slug d h1 h2
    have hg : get_cached cache now ttl slug = (none, eraseKey slug cache) := by
      simp only [get_cached, h1, h2]
    rw [hg]

/-- C4 amended witness at a fresh concrete entry. -/
theorem get_cached_freshness_witness :
    (((get_cached (sampleCacheAt (Stamp.valid 0)) 10 86400 "p").1 = none ↔ (86400 : Int) ≤ 10 - 0) ∧
     ((10 : Int) - 0 < 86400 → (get_cached (sampleCacheAt (Stamp.valid 0)) 10 86400 "p").1 =
        some { make_unknown_product_template "Sample" with last_updated := some (Stamp.valid 0) })) :=
  get_cached_freshness.1 (sampleCacheAt (Stamp.valid 0)) 10 86400 "p"
    { make_unknown_product_template "Sample" with last_updated := some (Stamp.valid 0) } 0
    (by decide) (by decide)

/-- C7 counterexample.  A read of an expired-but-present entry does remove
it: after the miss the key is gone from the store, so — contrary to the
claim — it is not retained as a best-available fallback. -/
theorem get_cached_expired_entry_removed_counterexample :
    (get_cached (sampleCacheAt (Stamp.valid 0)) (2 * default_ttl_seconds) default_ttl_seconds "p").1 = none ∧
    ((get_cached (sampleCacheAt (Stamp.valid 0)) (2 * default_ttl_seconds) default_ttl_seconds "p").2).lookup "p" = none := by
  constructor
  · decide
  · decide

/-- C7 amended.  A cache read that misses because the entry's age is at
least the TTL deletes that entry from the store (`del PRODUCT_CACHE[slug]`),
so it is not retained for later use. -/
theorem get_cached_expired_deletes (cache : List (String × ComplianceData))
    (now ttl : Int) (slug : String) (d : ComplianceData) (t : Int)
    (h1 : cache.lookup slug = some d) (h2 : d.last_updated = some (Stamp.valid t))
    (h3 : ttl ≤ now - t) :
    (get_cached cache now ttl slug).1 = none ∧
    ((get_cached cache now ttl slug).2).lookup slug = none := by
  have hf : ¬(now - t < ttl) := by omega
  have hg : get_cached cache now ttl slug = (none, eraseKey slug cache) := by
    simp only [get_cached, h1, h2]
    rw [if_neg hf]
  rw [hg]
  exact ⟨rfl, lookup_eraseKey slug cache⟩

/-- C7 amended witness at a concrete expired entry. -/
theorem get_cached_expired_deletes_witness :
    (get_cached (sampleCacheAt (Stamp.valid 0)) 200000 86400 "p").1 = none ∧
    ((get_cached (sampleCacheAt (Stamp.valid 0)) 200000 86400 "p").2).lookup "p" = none :=
  get_cached_expired_deletes (sampleCacheAt (Stamp.valid 0)) 200000 86400 "p"
    { make_unknown_product_template "Sample" with last_updated := some (Stamp.valid 0) } 0
    (by decide) (by decide) (by decide)

/-- Every failure outcome of the synchronous research attempt yields
`None` rather than an exception. -/
theorem research_fails_none (apiKey : Bool) (o : ResearchOutcome) (now : Int)
    (ho : o.failed = true) : research_product_via_claude apiKey o now = none := by
  cases o with
  | success raw => simp [ResearchOutcome.failed] at ho
  | timeout => cases apiKey <;> rfl
  | apiError => cases apiKey <;> rfl
  | parseError => cases apiKey <;> rfl
  | unexpectedError => cases apiKey <;> rfl

/-- C2.  A non-forced lookup is total: for every input string and every
state it returns a record that is cache-annotated, reference-sourced, or
the synthesized placeholder whose status is `"RESEARCHING"`; no input
produces a not-found error (the embedding is a total function, and each
branch below is one of the three permitted sources). -/
theorem get_product_data_total (product_slug : String) (apiKey bgAvail : Bool)
    (o : ResearchOutcome) (now ttl : Int) (cache : List (String × ComplianceData)) :
    (get_product_data product_slug false apiKey bgAvail o now ttl cache).record.data_source_note =
        some "Dados em cache" ∨
    (get_product_data product_slug false apiKey bgAvail o now ttl cache).record.data_source =
        "reference_knowledge" ∨
    ((get_product_data product_slug false apiKey bgAvail o now ttl cache).record.data_source =
        "template_pending_research" ∧
     (get_product_data product_slug false apiKey bgAvail o now ttl cache).record.status =
        "RESEARCHING") := by
  cases hgc : (get_cached cache now ttl (normalize_slug product_slug)).1 with
  | some c =>
    have hp2 : get_cached cache now ttl (normalize_slug product_slug)
        = (some c, (get_cached cache now ttl (normalize_slug product_slug)).2) := by rw [← hgc]
    left
    rw [get_product_data, hp2]
    simp [apply_regulatory_truth_data_source_note]
  | none =>
    have hp2 : get_cached cache now ttl (normalize_slug product_slug)
        = (none, (get_cached cache now ttl (normalize_slug product_slug)).2) := by rw [← hgc]
    cases apiKey <;> cases bgAvail <;>
      cases hrf : REFERENCE_DATA.lookup (normalize_slug product_slug) <;>
      (rw [get_product_data, hp2]
       simp [hrf, apply_regulatory_truth_data_source, make_unknown_product_template, set_cached])

/-- C5.  A forced-refresh lookup whose synchronous research attempt fails —
timeout, API error, parse failure, or unexpected exception — raises
nothing (every failure is absorbed into a `None` result) and falls
through to reference-knowledge data when the key is known, and to the
placeholder record when it is not. -/
theorem forced_refresh_failure_falls_back (product_slug : String) (apiKey bgAvail : Bool)
    (o : ResearchOutcome) (now ttl : Int) (cache : List (String × ComplianceData))
    (ho : o.failed = true) :
    (∀ ref : ComplianceData, REFERENCE_DATA.lookup (normalize_slug product_slug) = some ref →
      (get_product_data product_slug true apiKey bgAvail o now ttl cache).record.data_source =
        "reference_knowledge") ∧
    (REFERENCE_DATA.lookup (normalize_slug product_slug) = none →
      (get_product_data product_slug true apiKey bgAvail o now ttl cache).record.data_source =
        "template_pending_research" ∧
      (get_product_data product_slug true apiKey bgAvail o now ttl cache).record.status =
        "RESEARCHING") := by
  constructor
  · intro ref hrf
    cases apiKey <;> cases bgAvail <;>
      (rw [get_product_data]
       simp [research_fails_none _ o now ho, hrf, apply_regulatory_truth_data_source, set_cached])
  · intro hrf
    cases apiKey <;> cases bgAvail <;>
      (rw [get_product_data]
       simp [research_fails_none _ o now ho, hrf, make_unknown_product_template])

/-- C5 witness: forced refresh with a research timeout serves the
reference record for the known key `"acai"` and the placeholder for the
unknown key `"unknown_fruit"`. -/
theorem forced_refresh_failure_falls_back_witness :
    (get_product_data "acai" true true false ResearchOutcome.timeout 0 86400 []).record.data_source =
      "reference_knowledge" ∧
    ((get_product_data "unknown_fruit" true true false ResearchOutcome.timeout 0 86400 []).record.data_source =
        "template_pending_research" ∧
     (get_product_data "unknown_fruit" true true false ResearchOutcome.timeout 0 86400 []).record.status =
        "RESEARCHING") :=
  ⟨(forced_refresh_failure_falls_back "acai" true false ResearchOutcome.timeout 0 86400 []
      (by decide)).1 acaiReference (by decide),
   (forced_refresh_failure_falls_back "unknown_fruit" true false ResearchOutcome.timeout 0 86400 []
      (by decide)).2 (by decide)⟩

/-- C6 counterexample.  Handing the mapping payload
`\x7b"output": [\x7b"text": "```json ... ```"\x7d]\x7d` to the extraction engine does
not yield a record with `ncm_code = "123"`: the engine has no
container-field search, accepts only text, and under Python's dynamic
typing the call raises `AttributeError` at `text_content.strip()`. -/
theorem extraction_mapping_payload_counterexample :
    parse_compliance_json_payload payloadC6 = Except.error "AttributeError" ∧
    ¬ ∃ kvs : List (String × Json), parse_compliance_json_payload payloadC6 =
        Except.ok (some (Json.jobj kvs)) ∧ kvs.lookup "ncm_code" = some (Json.jstr "123") := by
  refine ⟨rfl, ?_⟩
  rintro ⟨kvs, h, -⟩
  rw [show parse_compliance_json_payload payloadC6 = Except.error "AttributeError" from rfl] at h
  exact absurd h (by simp)

/-- C6 amended.  The extraction engine consumes the text of the response
content blocks; given a block whose text is the fenced blob
"```json ... ```" of the scenario, the fenced-block strategy extracts the
embedded record, whose `ncm_code` equals `"123"`. -/
theorem extraction_fenced_text_yields_record :
    parse_compliance_json (extract_text_from_blocks blocksC6) =
      some (Json.jobj [("ncm_code", Json.jstr "123"), ("risk_score", Json.jnum 80)]) ∧
    ([("ncm_code", Json.jstr "123"), ("risk_score", Json.jnum 80)].lookup "ncm_code" : Option Json) =
      some (Json.jstr "123") :=
  ⟨rfl, rfl⟩

end Zoi
